import Mathlib

/-!
Shallow embedding of the credential-lifecycle core of the
garmin-mcp-cloud Cloudflare Worker (files `src/token-refresh.ts`,
`src/garmin-client.ts`, `src/types.ts`).

Pure string algorithms (percent encoding, OAuth1 header assembly,
base64) are translated directly.  Platform primitives
(encodeURIComponent, btoa) are modelled by their standardized
behaviour; the raw HMAC-SHA1 primitive supplied by Web Crypto is an
abstract parameter threaded through the definitions.  Stateful code
(KV reads/writes, fetch) is modelled by explicit state passing over a
key-value store record together with an event trace; upstream HTTP
responses are supplied by a network environment record.  JavaScript
numbers that may be absent at runtime (fields read off parsed JSON)
are modelled as Option Int with explicit JS truthiness/comparison
semantics.
-/

/-- One uppercase hexadecimal digit, as used by percent escapes. -/
def hexDigitUpper (n : Nat) : Char :=
  if n < 10 then Char.ofNat (48 + n) else Char.ofNat (55 + n)

/-- Two-digit uppercase hexadecimal rendering of a byte. -/
def toHex2 (b : Nat) : String :=
  String.mk [hexDigitUpper (b / 16), hexDigitUpper (b % 16)]

/-- JavaScript `n.toString(16).toUpperCase()` for a code unit below 256:
no zero padding. -/
def jsHexUpper (n : Nat) : String :=
  if n < 16 then String.mk [hexDigitUpper n]
  else String.mk [hexDigitUpper (n / 16), hexDigitUpper (n % 16)]

/-- UTF-8 bytes of one Unicode scalar value, as produced by TextEncoder
and by the percent escaping of encodeURIComponent. -/
def utf8Bytes (c : Char) : List Nat :=
  let n := c.toNat
  if n < 0x80 then [n]
  else if n < 0x800 then [0xC0 + n / 0x40, 0x80 + n % 0x40]
  else if n < 0x10000 then
    [0xE0 + n / 0x1000, 0x80 + (n / 0x40) % 0x40, 0x80 + n % 0x40]
  else
    [0xF0 + n / 0x40000, 0x80 + (n / 0x1000) % 0x40,
     0x80 + (n / 0x40) % 0x40, 0x80 + n % 0x40]

/-- TextEncoder: UTF-8 bytes of a whole string. -/
def utf8Encode (s : String) : List Nat :=
  s.data.flatMap utf8Bytes

/-- The characters encodeURIComponent leaves unescaped:
A-Z a-z 0-9 - _ . ! ~ * and the two parens and the apostrophe. -/
def isURIUnescaped (c : Char) : Bool :=
  let n := c.toNat
  (65 ≤ n && n ≤ 90) || (97 ≤ n && n ≤ 122) || (48 ≤ n && n ≤ 57) ||
  n == 45 || n == 95 || n == 46 || n == 126 ||
  n == 33 || n == 39 || n == 40 || n == 41 || n == 42

/-- RFC 3986 unreserved characters: letters, digits, hyphen, period,
underscore, tilde. -/
def isUnreserved (c : Char) : Bool :=
  let n := c.toNat
  (65 ≤ n && n ≤ 90) || (97 ≤ n && n ≤ 122) || (48 ≤ n && n ≤ 57) ||
  n == 45 || n == 46 || n == 95 || n == 126

/-- The five characters of the OAuth1.0a exception set, the character
class of the regex in percentEncode. -/
def isFiveChar (c : Char) : Bool :=
  let n := c.toNat
  n == 33 || n == 39 || n == 40 || n == 41 || n == 42

/-- Concatenation of the images of a string-valued function over a
list, the shape of every characterwise encoder below. -/
def concatStr {α : Type} (f : α → String) : List α → String
  | [] => ""
  | x :: xs => f x ++ concatStr f xs

/-- encodeURIComponent on a single character: kept verbatim when
unescaped, otherwise each UTF-8 byte becomes an uppercase percent
triplet. -/
def eucChar (c : Char) : String :=
  if isURIUnescaped c then String.singleton c
  else concatStr (fun b => "%" ++ toHex2 b) (utf8Bytes c)

/-- Model of the platform encodeURIComponent. -/
def encodeURIComponent (s : String) : String :=
  concatStr eucChar s.data

/-- One step of the regex replacement in percentEncode: a character of
the five-character class becomes a percent escape built from its code
unit, anything else is kept. -/
def replaceFiveChar (c : Char) : String :=
  if isFiveChar c then "%" ++ jsHexUpper c.toNat else String.singleton c

/-- The global regex replacement of percentEncode, applied characterwise. -/
def replaceFive (s : String) : String :=
  concatStr replaceFiveChar s.data

/-- percentEncode from token-refresh.ts: encodeURIComponent followed by
re-escaping the five OAuth1.0a exception characters. -/
def percentEncode (s : String) : String :=
  replaceFive (encodeURIComponent s)

/-- The alphabet of standard base64. -/
def base64Char (n : Nat) : Char :=
  "ABCDEFGHIJKLMNOPQRSTUVWXYZabcdefghijklmnopqrstuvwxyz0123456789+/".data.getD n 'A'

/-- Model of the platform btoa applied to a byte string, i.e. standard
base64 with padding over the raw bytes. -/
def btoa : List Nat → String
  | [] => ""
  | [a] =>
    String.mk [base64Char (a / 4), base64Char (a % 4 * 16)] ++ "=="
  | [a, b] =>
    String.mk [base64Char (a / 4), base64Char (a % 4 * 16 + b / 16),
               base64Char (b % 16 * 4)] ++ "="
  | a :: b :: c :: rest =>
    String.mk [base64Char (a / 4), base64Char (a % 4 * 16 + b / 16),
               base64Char (b % 16 * 4 + c / 64), base64Char (c % 64)] ++
    btoa rest

/-- interface OAuth1Token from types.ts. -/
structure OAuth1Token where
  oauth_token : String
  oauth_token_secret : String
  mfa_token : Option String
  mfa_expiration_timestamp : Option String
  domain : String
  deriving Repr, DecidableEq

/-- interface OAuth2Token from types.ts.  The numeric fields are
declared as numbers but are read off parsed JSON and may be absent at
runtime (the refresh code tests them for truthiness), so they are
modelled as Option Int. -/
structure OAuth2Token where
  scope : String
  jti : String
  token_type : String
  access_token : String
  refresh_token : String
  expires_in : Option Int
  expires_at : Option Int
  refresh_token_expires_in : Option Int
  refresh_token_expires_at : Option Int
  deriving Repr, DecidableEq

/-- interface OAuthConsumer from types.ts. -/
structure OAuthConsumer where
  consumer_key : String
  consumer_secret : String
  deriving Repr, DecidableEq

/-- JS truthiness of a possibly-absent number: undefined and 0 are
falsy, every other number is truthy. -/
def jsTruthy : Option Int → Bool
  | none => false
  | some n => decide (n ≠ 0)

/-- JS comparison a > b where a may be undefined: a comparison with
undefined (NaN) is false. -/
def jsGtNum (a : Option Int) (b : Int) : Bool :=
  match a with
  | none => false
  | some x => decide (x > b)

/-- JS comparison a <= b where a may be undefined: a comparison with
undefined (NaN) is false. -/
def jsLeNum (a : Option Int) (b : Int) : Bool :=
  match a with
  | none => false
  | some x => decide (x ≤ b)

/-- The fixed exchange endpoint of token-refresh.ts. -/
def EXCHANGE_URL : String :=
  "https://connectapi.garmin.com/oauth-service/oauth/exchange/user/2.0"

/-- The fixed consumer-key source of token-refresh.ts. -/
def CONSUMER_URL : String := "https://thegarth.s3.amazonaws.com/oauth_consumer.json"

/-- KV key of the cached consumer pair. -/
def CONSUMER_KV_KEY : String := "oauth_consumer"

/-- 24-hour TTL of the cached consumer pair, in seconds. -/
def CONSUMER_TTL : Nat := 86400

/-- Base URL of the data API, from garmin-client.ts. -/
def GARMIN_BASE : String := "https://connectapi.garmin.com"

/-- Fixed device user agent, from garmin-client.ts. -/
def USER_AGENT : String := "com.garmin.android.apps.connectmobile"

/-- Injected signing context: nonce and timestamp (sourced from the RNG
and the clock in the code, injected here as the determinism note of the spec
directs) and the raw HMAC-SHA1 primitive of Web Crypto, as a function
from key bytes and data bytes to digest bytes. -/
structure SignCtx where
  nonce : String
  timestamp : String
  hmacRaw : List Nat → List Nat → List Nat

/-- hmacSha1 from token-refresh.ts: UTF-8 encode key and data, sign with
the Web Crypto HMAC-SHA1 primitive, base64 the raw digest via btoa. -/
def hmacSha1 (hmacRaw : List Nat → List Nat → List Nat) (key data : String) : String :=
  btoa (hmacRaw (utf8Encode key) (utf8Encode data))

/-- Lexicographic comparison of character lists by code point, the
comparison JS Array.sort applies to the ASCII keys here. -/
def charListLe : List Char → List Char → Bool
  | [], _ => true
  | _ :: _, [] => false
  | x :: xs, y :: ys =>
    if x.toNat < y.toNat then true
    else if y.toNat < x.toNat then false
    else charListLe xs ys

/-- Lexicographic string comparison by code point. -/
def strLe (a b : String) : Bool := charListLe a.data b.data

/-- Insert a string into a sorted list. -/
def insertSorted (x : String) : List String → List String
  | [] => [x]
  | y :: ys => if strLe x y then x :: y :: ys else y :: insertSorted x ys

/-- Object.keys(params).sort(). -/
def sortKeys : List String → List String
  | [] => []
  | x :: xs => insertSorted x (sortKeys xs)

/-- Record access params[k] over an association list. -/
def recordGet (params : List (String × String)) (k : String) : String :=
  ((params.find? (fun p => p.1 == k)).map Prod.snd).getD ""

/-- buildOAuth1Header from token-refresh.ts, with nonce, timestamp and
the HMAC primitive injected through the signing context. -/
def buildOAuth1Header (sctx : SignCtx) (consumer : OAuthConsumer)
    (oauth1 : OAuth1Token) : String :=
  let params : List (String × String) :=
    [("oauth_consumer_key", consumer.consumer_key),
     ("oauth_nonce", sctx.nonce),
     ("oauth_signature_method", "HMAC-SHA1"),
     ("oauth_timestamp", sctx.timestamp),
     ("oauth_token", oauth1.oauth_token),
     ("oauth_version", "1.0")]
  let paramString :=
    String.intercalate "&"
      ((sortKeys (params.map Prod.fst)).map
        (fun k => percentEncode k ++ "=" ++ percentEncode (recordGet params k)))
  let baseString :=
    String.intercalate "&" ["POST", percentEncode EXCHANGE_URL, percentEncode paramString]
  let signingKey :=
    percentEncode consumer.consumer_secret ++ "&" ++
      percentEncode oauth1.oauth_token_secret
  let signature := hmacSha1 sctx.hmacRaw signingKey baseString
  let params2 := params ++ [("oauth_signature", signature)]
  let headerParts :=
    String.intercalate ", "
      ((sortKeys (params2.map Prod.fst)).map
        (fun k => percentEncode k ++ "=\"" ++ percentEncode (recordGet params2 k) ++ "\""))
  "OAuth " ++ headerParts

/-- Insert a key-value pair into a list sorted by a key projection. -/
def insertSortedBy (key : String × String → String) (x : String × String) :
    List (String × String) → List (String × String)
  | [] => [x]
  | y :: ys =>
    if strLe (key x) (key y) then x :: y :: ys else y :: insertSortedBy key x ys

/-- Sort an association list by a key projection. -/
def sortPairsBy (key : String × String → String) :
    List (String × String) → List (String × String)
  | [] => []
  | x :: xs => insertSortedBy key x (sortPairsBy key xs)

/-- Modelled from the spec: the reference OAuth1.0a signing algorithm of
the Canonical Signer section, for the six-parameter bodyless exchange
request.  The protocol parameters are percent-encoded and sorted
lexicographically by encoded key into an ampersand-joined parameter
string; the signature base string joins the method, the percent-encoded
target URL and the percent-encoded parameter string with literal
ampersands; the signing key is the percent-encoded consumer secret, an
ampersand, and the percent-encoded token secret; oauth_signature is the
base64 of the raw HMAC-SHA1 digest of the base string under that key;
the header is the word OAuth and a space followed by all seven
parameters sorted by key, each rendered as key, equals sign, and the
percent-encoded value in double quotes, comma-space separated. -/
def specReferenceOAuth1Header (sctx : SignCtx) (consumer : OAuthConsumer)
    (oauth1 : OAuth1Token) : String :=
  let params : List (String × String) :=
    [("oauth_consumer_key", consumer.consumer_key),
     ("oauth_nonce", sctx.nonce),
     ("oauth_signature_method", "HMAC-SHA1"),
     ("oauth_timestamp", sctx.timestamp),
     ("oauth_token", oauth1.oauth_token),
     ("oauth_version", "1.0")]
  let encoded := params.map (fun p => (percentEncode p.1, percentEncode p.2))
  let paramString :=
    String.intercalate "&"
      ((sortPairsBy Prod.fst encoded).map (fun p => p.1 ++ "=" ++ p.2))
  let baseString :=
    String.intercalate "&" ["POST", percentEncode EXCHANGE_URL, percentEncode paramString]
  let signingKey :=
    percentEncode consumer.consumer_secret ++ "&" ++
      percentEncode oauth1.oauth_token_secret
  let oauthSignature :=
    btoa (sctx.hmacRaw (utf8Encode signingKey) (utf8Encode baseString))
  let allParams := params ++ [("oauth_signature", oauthSignature)]
  let headerParts :=
    String.intercalate ", "
      ((sortPairsBy Prod.fst allParams).map
        (fun p => percentEncode p.1 ++ "=\"" ++ percentEncode p.2 ++ "\""))
  "OAuth " ++ headerParts

/-- The GARMIN_KV namespace: one field per fixed key used by the core. -/
structure KVStore where
  oauth1_token : Option OAuth1Token
  oauth2_token : Option OAuth2Token
  oauth_consumer : Option OAuthConsumer
  deriving Repr, DecidableEq

/-- Observable effects of one invocation, in order: KV reads, KV writes
(with the TTL passed to put, if any), outbound HTTP fetches (with the
Authorization header value sent, empty when none), and a marker placed
at the entry of refreshOAuth2Token so that invocations of the Refresh
Orchestrator are visible in the trace. -/
inductive Event where
  | kvRead (key : String)
  | kvWrite (key : String) (ttl : Option Nat)
  | httpFetch (url : String) (authHeader : String)
  | callRefresh
  deriving Repr, DecidableEq

/-- The typed errors thrown by the core, one per distinct throw site. -/
inductive GErr where
  | noOAuth2Token
  | noOAuth1Token
  | consumerFetchFailed (status : Nat)
  | exchangeFailed (status : Nat) (body : String)
  | apiError (status : Nat) (body : String)
  deriving Repr, DecidableEq

/-- An upstream HTTP response: status and body text.  For JSON
endpoints the parsed payload is carried separately by the network
environment. -/
structure HttpResp where
  status : Nat
  body : String
  deriving Repr, DecidableEq

/-- Response.ok: status in the inclusive-exclusive range 200 to 300. -/
def HttpResp.ok (r : HttpResp) : Bool :=
  200 ≤ r.status && r.status < 300

/-- The network environment of one invocation: what each upstream
endpoint would answer.  Data-API responses are indexed by attempt
number within one Executor call. -/
structure NetEnv where
  consumerResp : HttpResp
  consumerJson : OAuthConsumer
  exchangeResp : HttpResp
  exchangeJson : OAuth2Token
  apiResps : Nat → HttpResp

/-- getConsumer from token-refresh.ts: KV cache first, otherwise a
single fetch of the consumer URL, stored on success with the 24-hour
TTL, and a terminal error on a non-ok response. -/
def getConsumer (kv : KVStore) (net : NetEnv) :
    Except GErr OAuthConsumer × KVStore × List Event :=
  match kv.oauth_consumer with
  | some cached => (Except.ok cached, kv, [Event.kvRead CONSUMER_KV_KEY])
  | none =>
    if net.consumerResp.ok then
      (Except.ok net.consumerJson,
       { kv with oauth_consumer := some net.consumerJson },
       [Event.kvRead CONSUMER_KV_KEY, Event.httpFetch CONSUMER_URL "",
        Event.kvWrite CONSUMER_KV_KEY (some CONSUMER_TTL)])
    else
      (Except.error (GErr.consumerFetchFailed net.consumerResp.status), kv,
       [Event.kvRead CONSUMER_KV_KEY, Event.httpFetch CONSUMER_URL ""])

/-- The expiry normalization of refreshOAuth2Token: absolute timestamps
are computed from relative durations when (in the JS truthiness sense)
the absolute field is missing and the relative field is present. -/
def normalizeExpiry (now : Int) (d : OAuth2Token) : OAuth2Token :=
  let d1 :=
    if !jsTruthy d.expires_at && jsTruthy d.expires_in then
      { d with expires_at := some (now + d.expires_in.getD 0) }
    else d
  if !jsTruthy d1.refresh_token_expires_at && jsTruthy d1.refresh_token_expires_in then
    { d1 with refresh_token_expires_at := some (now + d1.refresh_token_expires_in.getD 0) }
  else d1

/-- refreshOAuth2Token from token-refresh.ts: obtain the consumer pair,
build the signed header, POST to the exchange endpoint, fail with the
response status and body on a non-ok response, otherwise normalize the
expiry fields, persist under the oauth2_token key and return. -/
def refreshOAuth2Token (kv : KVStore) (oauth1 : OAuth1Token) (net : NetEnv)
    (now : Int) (sctx : SignCtx) :
    Except GErr OAuth2Token × KVStore × List Event :=
  match getConsumer kv net with
  | (Except.error e, kv1, ev1) => (Except.error e, kv1, Event.callRefresh :: ev1)
  | (Except.ok consumer, kv1, ev1) =>
    let authHeader := buildOAuth1Header sctx consumer oauth1
    let ev2 := Event.callRefresh :: ev1 ++ [Event.httpFetch EXCHANGE_URL authHeader]
    if net.exchangeResp.ok then
      let data := normalizeExpiry now net.exchangeJson
      (Except.ok data, { kv1 with oauth2_token := some data },
       ev2 ++ [Event.kvWrite "oauth2_token" none])
    else
      (Except.error (GErr.exchangeFailed net.exchangeResp.status net.exchangeResp.body),
       kv1, ev2)

/-- In-process state of a GarminClient: the KV store it is bound to and
the invocation-scoped oauth2Cache field. -/
structure ClientState where
  kv : KVStore
  oauth2Cache : Option OAuth2Token
  deriving Repr, DecidableEq

/-- The part of getAccessToken after the in-process cache check: load
the persisted OAuth2 credential, refresh through the OAuth1 credential
when it is stale, cache the resulting credential in-process and return
its access token. -/
def getAccessTokenLoad (st : ClientState) (net : NetEnv) (now : Int) (sctx : SignCtx) :
    Except GErr String × ClientState × List Event :=
  match st.kv.oauth2_token with
  | none => (Except.error GErr.noOAuth2Token, st, [Event.kvRead "oauth2_token"])
  | some oauth2 =>
    if jsLeNum oauth2.expires_at (now + 60) then
      match st.kv.oauth1_token with
      | none =>
        (Except.error GErr.noOAuth1Token, st,
         [Event.kvRead "oauth2_token", Event.kvRead "oauth1_token"])
      | some oauth1 =>
        match refreshOAuth2Token st.kv oauth1 net now sctx with
        | (Except.error e, kv1, ev) =>
          (Except.error e, { st with kv := kv1 },
           [Event.kvRead "oauth2_token", Event.kvRead "oauth1_token"] ++ ev)
        | (Except.ok fresh, kv1, ev) =>
          (Except.ok fresh.access_token, { kv := kv1, oauth2Cache := some fresh },
           [Event.kvRead "oauth2_token", Event.kvRead "oauth1_token"] ++ ev)
    else
      (Except.ok oauth2.access_token, { st with oauth2Cache := some oauth2 },
       [Event.kvRead "oauth2_token"])

/-- getAccessToken from garmin-client.ts: answer from the in-process
cache when it holds a token valid beyond the 60-second safety margin,
otherwise fall through to the load-and-maybe-refresh path. -/
def getAccessToken (st : ClientState) (net : NetEnv) (now : Int) (sctx : SignCtx) :
    Except GErr String × ClientState × List Event :=
  match st.oauth2Cache with
  | some cached =>
    if jsGtNum cached.expires_at (now + 60) then
      (Except.ok cached.access_token, st, [])
    else getAccessTokenLoad st net now sctx
  | none => getAccessTokenLoad st net now sctx

/-- URL construction of GarminClient.get: the base joined with the path
and, when query parameters are given, a query string serialized with
percent escaping, modelling URL.searchParams. -/
def urlWithParams (path : String) (params : List (String × String)) : String :=
  match params with
  | [] => GARMIN_BASE ++ path
  | _ =>
    GARMIN_BASE ++ path ++ "?" ++
      String.intercalate "&"
        (params.map (fun p => encodeURIComponent p.1 ++ "=" ++ encodeURIComponent p.2))

/-- GarminClient.get from garmin-client.ts: obtain a token, issue the
request with a Bearer header; a 204 is an empty success; on a 401 or
403 clear the in-process token cache, obtain a fresh token and retry
exactly once, any non-ok retry being terminal with the retry status
and body; any other non-ok first response is terminal with its status
and body.  A successful body is returned as some of the body text. -/
def GarminClient.get (st : ClientState) (net : NetEnv) (now : Int) (sctx : SignCtx)
    (path : String) (params : List (String × String)) :
    Except GErr (Option String) × ClientState × List Event :=
  match getAccessToken st net now sctx with
  | (Except.error e, st1, ev1) => (Except.error e, st1, ev1)
  | (Except.ok token, st1, ev1) =>
    let url := urlWithParams path params
    let resp := net.apiResps 0
    let ev2 := ev1 ++ [Event.httpFetch url ("Bearer " ++ token)]
    if resp.status == 204 then (Except.ok none, st1, ev2)
    else if resp.status == 401 || resp.status == 403 then
      match getAccessToken { st1 with oauth2Cache := none } net now sctx with
      | (Except.error e, st2, ev3) => (Except.error e, st2, ev2 ++ ev3)
      | (Except.ok freshToken, st2, ev3) =>
        let retry := net.apiResps 1
        let ev4 := ev2 ++ ev3 ++ [Event.httpFetch url ("Bearer " ++ freshToken)]
        if !retry.ok then
          (Except.error (GErr.apiError retry.status retry.body), st2, ev4)
        else if retry.status == 204 then (Except.ok none, st2, ev4)
        else (Except.ok (some retry.body), st2, ev4)
    else if !resp.ok then
      (Except.error (GErr.apiError resp.status resp.body), st1, ev2)
    else (Except.ok (some resp.body), st1, ev2)

/-- GarminClient.post from garmin-client.ts: obtain a token, issue one
POST with a Bearer header; a 204 is an empty success; any other non-ok
response is terminal with its status and body — there is no retry
branch; an empty success body parses to null. -/
def GarminClient.post (st : ClientState) (net : NetEnv) (now : Int) (sctx : SignCtx)
    (path : String) (body : String) :
    Except GErr (Option String) × ClientState × List Event :=
  match getAccessToken st net now sctx with
  | (Except.error e, st1, ev1) => (Except.error e, st1, ev1)
  | (Except.ok token, st1, ev1) =>
    let url := GARMIN_BASE ++ path
    let resp := net.apiResps 0
    let ev2 := ev1 ++ [Event.httpFetch url ("Bearer " ++ token)]
    if resp.status == 204 then (Except.ok none, st1, ev2)
    else if !resp.ok then
      (Except.error (GErr.apiError resp.status resp.body), st1, ev2)
    else if resp.body == "" then (Except.ok none, st1, ev2)
    else (Except.ok (some resp.body), st1, ev2)

/-- GarminClient.put from garmin-client.ts: identical in shape to post,
with the PUT method. -/
def GarminClient.put (st : ClientState) (net : NetEnv) (now : Int) (sctx : SignCtx)
    (path : String) (body : String) :
    Except GErr (Option String) × ClientState × List Event :=
  match getAccessToken st net now sctx with
  | (Except.error e, st1, ev1) => (Except.error e, st1, ev1)
  | (Except.ok token, st1, ev1) =>
    let url := GARMIN_BASE ++ path
    let resp := net.apiResps 0
    let ev2 := ev1 ++ [Event.httpFetch url ("Bearer " ++ token)]
    if resp.status == 204 then (Except.ok none, st1, ev2)
    else if !resp.ok then
      (Except.error (GErr.apiError resp.status resp.body), st1, ev2)
    else if resp.body == "" then (Except.ok none, st1, ev2)
    else (Except.ok (some resp.body), st1, ev2)

/-! ### Properties of the percent encoder -/

theorem char_toNat_lt (c : Char) : c.toNat < 1114112 := by
  rcases c.valid with h | ⟨h1, h2⟩
  · exact Nat.lt_trans h (by decide)
  · exact h2

theorem utf8Bytes_lt (c : Char) : ∀ b ∈ utf8Bytes c, b < 256 := by
  have hc := char_toNat_lt c
  intro b hb
  simp only [utf8Bytes] at hb
  split_ifs at hb <;>
    simp only [List.mem_cons, List.not_mem_nil, or_false] at hb <;> omega

theorem isFiveChar_eq (c : Char) :
    isFiveChar c = true ↔
      (c.toNat = 33 ∨ c.toNat = 39 ∨ c.toNat = 40 ∨ c.toNat = 41 ∨ c.toNat = 42) := by
  simp only [isFiveChar, Bool.or_eq_true, beq_iff_eq]
  tauto

theorem hexDigitUpper_not_five : ∀ n, n < 16 → isFiveChar (hexDigitUpper n) = false := by
  decide

theorem concatStr_append {α : Type} (f : α → String) (l1 l2 : List α) :
    concatStr f (l1 ++ l2) = concatStr f l1 ++ concatStr f l2 := by
  induction l1 with
  | nil => rfl
  | cons x xs ih =>
    show f x ++ concatStr f (xs ++ l2) = (f x ++ concatStr f xs) ++ concatStr f l2
    rw [ih, String.append_assoc]

theorem replaceFive_append (a b : String) :
    replaceFive (a ++ b) = replaceFive a ++ replaceFive b := by
  rcases a with ⟨l1⟩
  rcases b with ⟨l2⟩
  show concatStr replaceFiveChar (l1 ++ l2) = _
  exact concatStr_append _ l1 l2

theorem concat_replaceFiveChar_id (l : List Char)
    (h : ∀ c ∈ l, isFiveChar c = false) :
    concatStr replaceFiveChar l = String.mk l := by
  induction l with
  | nil => rfl
  | cons c cs ih =>
    have hc : isFiveChar c = false := h c (List.mem_cons_self c cs)
    have ih2 := ih (fun x hx => h x (List.mem_cons_of_mem _ hx))
    simp only [concatStr, replaceFiveChar, hc, Bool.false_eq_true, if_false, ih2]
    rfl

theorem replaceFive_id (s : String) (h : ∀ c ∈ s.data, isFiveChar c = false) :
    replaceFive s = s := by
  rcases s with ⟨l⟩
  exact concat_replaceFiveChar_id l h

theorem concat_escape_no_five (bs : List Nat) (hb : ∀ b ∈ bs, b < 256) :
    ∀ x ∈ (concatStr (fun b => "%" ++ toHex2 b) bs).data, isFiveChar x = false := by
  induction bs with
  | nil => intro x hx; simp [concatStr] at hx
  | cons b rest ih =>
    intro x hx
    have hb0 : b < 256 := hb b (List.mem_cons_self b rest)
    simp only [concatStr] at hx
    rw [String.data_append] at hx
    rcases List.mem_append.mp hx with h1 | h2
    · have hdata : ("%" ++ toHex2 b).data =
          ['%', hexDigitUpper (b / 16), hexDigitUpper (b % 16)] := rfl
      rw [hdata] at h1
      simp only [List.mem_cons, List.not_mem_nil, or_false] at h1
      rcases h1 with h | h | h <;> subst h
      · decide
      · exact hexDigitUpper_not_five _ (by omega)
      · exact hexDigitUpper_not_five _ (by omega)
    · exact ih (fun y hy => hb y (List.mem_cons_of_mem _ hy)) x h2

theorem isURIUnescaped_of_unreserved (c : Char) (h : isUnreserved c = true) :
    isURIUnescaped c = true := by
  simp only [isUnreserved, Bool.or_eq_true, Bool.and_eq_true, decide_eq_true_eq,
    beq_iff_eq] at h
  simp only [isURIUnescaped, Bool.or_eq_true, Bool.and_eq_true, decide_eq_true_eq,
    beq_iff_eq]
  omega

theorem not_five_of_unreserved (c : Char) (h : isUnreserved c = true) :
    isFiveChar c = false := by
  simp only [isUnreserved, Bool.or_eq_true, Bool.and_eq_true, decide_eq_true_eq,
    beq_iff_eq] at h
  simp only [isFiveChar, Bool.or_eq_true, beq_iff_eq]
  simp only [Bool.eq_false_iff, ne_eq, Bool.or_eq_true, beq_iff_eq]
  omega

theorem isURIUnescaped_of_five (c : Char) (h : isFiveChar c = true) :
    isURIUnescaped c = true := by
  rw [isFiveChar_eq] at h
  simp only [isURIUnescaped, Bool.or_eq_true, Bool.and_eq_true, decide_eq_true_eq,
    beq_iff_eq]
  omega

theorem eucChar_no_five (c : Char) (h : isFiveChar c = false) :
    ∀ x ∈ (eucChar c).data, isFiveChar x = false := by
  intro x hx
  simp only [eucChar] at hx
  split_ifs at hx
  · have hx2 : x = c := by
      have hd : (String.singleton c).data = [c] := rfl
      rw [hd] at hx
      simpa using hx
    subst hx2
    exact h
  · exact concat_escape_no_five (utf8Bytes c) (utf8Bytes_lt c) x hx

theorem percentEncode_singleton (c : Char) :
    percentEncode (String.singleton c) = replaceFive (eucChar c) := by
  show replaceFive (concatStr eucChar [c]) = replaceFive (eucChar c)
  simp only [concatStr, String.append_empty]

theorem encodeURIComponent_singleton (c : Char) :
    encodeURIComponent (String.singleton c) = eucChar c := by
  show concatStr eucChar [c] = eucChar c
  simp only [concatStr, String.append_empty]

/-- C5: percentEncode leaves every RFC 3986 unreserved character
(letters, digits, hyphen, period, underscore, tilde) unchanged, encodes
each of the five OAuth1.0a exception characters as an uppercase-hex
percent triplet (%21, %27, %28, %29, %2A), differs from the default
URL-encoding exactly on those five characters, and acts characterwise,
so these facts cover every input string. -/
theorem c5_percentEncode_rfc3986 (c : Char) (s : String) :
    (isUnreserved c = true → percentEncode (String.singleton c) = String.singleton c)
    ∧ (isFiveChar c = true → percentEncode (String.singleton c) = "%" ++ toHex2 c.toNat)
    ∧ (percentEncode (String.singleton (Char.ofNat 33)) = "%21"
       ∧ percentEncode (String.singleton (Char.ofNat 39)) = "%27"
       ∧ percentEncode (String.singleton (Char.ofNat 40)) = "%28"
       ∧ percentEncode (String.singleton (Char.ofNat 41)) = "%29"
       ∧ percentEncode (String.singleton (Char.ofNat 42)) = "%2A")
    ∧ (percentEncode (String.singleton c) ≠ encodeURIComponent (String.singleton c)
        ↔ isFiveChar c = true)
    ∧ percentEncode s = concatStr (fun x => percentEncode (String.singleton x)) s.data := by
  have hsingle : ∀ x : Char, replaceFive (String.singleton x) = replaceFiveChar x := by
    intro x
    show concatStr replaceFiveChar [x] = replaceFiveChar x
    simp [concatStr, String.append_empty]
  refine ⟨?_, ?_, by decide, ?_, ?_⟩
  · intro h
    rw [percentEncode_singleton]
    have hu := isURIUnescaped_of_unreserved c h
    have hf := not_five_of_unreserved c h
    rw [show eucChar c = String.singleton c from by simp [eucChar, hu]]
    apply replaceFive_id
    intro x hx
    have hd : (String.singleton c).data = [c] := rfl
    rw [hd] at hx
    have hxc : x = c := by simpa using hx
    subst hxc
    exact hf
  · intro h
    rw [percentEncode_singleton]
    have hu := isURIUnescaped_of_five c h
    rw [show eucChar c = String.singleton c from by simp [eucChar, hu]]
    rw [hsingle]
    simp only [replaceFiveChar, h, if_true]
    rcases (isFiveChar_eq c).mp h with h1 | h1 | h1 | h1 | h1 <;> rw [h1] <;> rfl
  · constructor
    · intro hne
      by_contra hf
      have hf2 : isFiveChar c = false := by
        cases hcase : isFiveChar c
        · rfl
        · exact absurd hcase hf
      apply hne
      rw [percentEncode_singleton, encodeURIComponent_singleton]
      exact replaceFive_id _ (eucChar_no_five c hf2)
    · intro h heq
      rw [percentEncode_singleton, encodeURIComponent_singleton] at heq
      have hu := isURIUnescaped_of_five c h
      rw [show eucChar c = String.singleton c from by simp [eucChar, hu]] at heq
      rw [hsingle] at heq
      simp only [replaceFiveChar, h, if_true] at heq
      have hlen := congrArg (fun t => t.data.length) heq
      rcases (isFiveChar_eq c).mp h with h1 | h1 | h1 | h1 | h1 <;>
        rw [h1] at hlen <;> simp at hlen <;> exact absurd hlen (by decide)
  · have h1 : ∀ l : List Char,
        replaceFive (concatStr eucChar l) =
          concatStr (fun x => replaceFive (eucChar x)) l := by
      intro l
      induction l with
      | nil => rfl
      | cons x xs ih =>
        show replaceFive (eucChar x ++ concatStr eucChar xs) = _
        rw [replaceFive_append, ih]
        rfl
    show replaceFive (concatStr eucChar s.data) = _
    rw [h1]
    congr 1
    funext x
    rw [percentEncode_singleton]

/-- Witness for C5 at concrete inputs: the unreserved letter a is kept
and the asterisk becomes its uppercase-hex triplet. -/
theorem c5_percentEncode_rfc3986_witness :
    percentEncode (String.singleton 'a') = String.singleton 'a'
    ∧ percentEncode (String.singleton (Char.ofNat 42)) =
        "%" ++ toHex2 (Char.ofNat 42).toNat :=
  ⟨(c5_percentEncode_rfc3986 'a' "x").1 (by decide),
   (c5_percentEncode_rfc3986 (Char.ofNat 42) "x").2.1 (by decide)⟩

/-- C2: for every consumer pair, OAuth1 credential, nonce, timestamp
and raw HMAC primitive, the header built by buildOAuth1Header is
exactly the header of the reference algorithm: six percent-encoded
protocol parameters sorted by encoded key into an ampersand-joined
parameter string, the base string joining the method and the
percent-encoded URL and parameter string, the signing key joining the
percent-encoded secrets, oauth_signature the base64 of the raw
HMAC-SHA1 digest, and the OAuth header of all seven parameters sorted
by key rendered as quoted percent-encoded values. -/
theorem c2_buildOAuth1Header_matches_reference (sctx : SignCtx)
    (consumer : OAuthConsumer) (oauth1 : OAuth1Token) :
    buildOAuth1Header sctx consumer oauth1 =
      specReferenceOAuth1Header sctx consumer oauth1 := by
  rfl

/-! ### Properties of the token lifecycle state machine -/

/-- The in-process cache check of getAccessToken: a cached credential
valid beyond the 60-second safety margin. -/
def cacheFresh (st : ClientState) (now : Int) : Bool :=
  match st.oauth2Cache with
  | some c => jsGtNum c.expires_at (now + 60)
  | none => false

theorem refresh_starts_callRefresh (kv : KVStore) (o1 : OAuth1Token)
    (net : NetEnv) (now : Int) (sctx : SignCtx) :
    ∃ rest, (refreshOAuth2Token kv o1 net now sctx).2.2 = Event.callRefresh :: rest := by
  unfold refreshOAuth2Token
  rcases hgc : getConsumer kv net with ⟨r, kv1, ev1⟩
  cases r with
  | error e => exact ⟨ev1, rfl⟩
  | ok consumer =>
    by_cases hx : net.exchangeResp.ok
    · simp [hx]
    · simp [hx]

theorem getAccessToken_of_cacheFresh (st : ClientState) (net : NetEnv)
    (now : Int) (sctx : SignCtx) (c : OAuth2Token)
    (hc : st.oauth2Cache = some c) (hf : jsGtNum c.expires_at (now + 60) = true) :
    getAccessToken st net now sctx = (Except.ok c.access_token, st, []) := by
  simp [getAccessToken, hc, hf]

theorem getAccessToken_eq_load (st : ClientState) (net : NetEnv)
    (now : Int) (sctx : SignCtx) (hc : cacheFresh st now = false) :
    getAccessToken st net now sctx = getAccessTokenLoad st net now sctx := by
  unfold getAccessToken
  rcases hcache : st.oauth2Cache with _ | c
  · rfl
  · have : jsGtNum c.expires_at (now + 60) = false := by
      simpa [cacheFresh, hcache] using hc
    simp [this]

theorem load_of_missing (st : ClientState) (net : NetEnv) (now : Int) (sctx : SignCtx)
    (h2 : st.kv.oauth2_token = none) :
    getAccessTokenLoad st net now sctx =
      (Except.error GErr.noOAuth2Token, st, [Event.kvRead "oauth2_token"]) := by
  simp [getAccessTokenLoad, h2]

theorem load_of_fresh (st : ClientState) (net : NetEnv) (now : Int) (sctx : SignCtx)
    (stored : OAuth2Token) (h2 : st.kv.oauth2_token = some stored)
    (hf : jsLeNum stored.expires_at (now + 60) = false) :
    getAccessTokenLoad st net now sctx =
      (Except.ok stored.access_token, { st with oauth2Cache := some stored },
       [Event.kvRead "oauth2_token"]) := by
  simp [getAccessTokenLoad, h2, hf]

theorem load_of_stale_no_oauth1 (st : ClientState) (net : NetEnv) (now : Int)
    (sctx : SignCtx) (stored : OAuth2Token) (h2 : st.kv.oauth2_token = some stored)
    (hs : jsLeNum stored.expires_at (now + 60) = true)
    (h1 : st.kv.oauth1_token = none) :
    getAccessTokenLoad st net now sctx =
      (Except.error GErr.noOAuth1Token, st,
       [Event.kvRead "oauth2_token", Event.kvRead "oauth1_token"]) := by
  simp [getAccessTokenLoad, h2, hs, h1]

theorem load_of_stale_refresh (st : ClientState) (net : NetEnv) (now : Int)
    (sctx : SignCtx) (stored : OAuth2Token) (o1 : OAuth1Token)
    (h2 : st.kv.oauth2_token = some stored)
    (hs : jsLeNum stored.expires_at (now + 60) = true)
    (h1 : st.kv.oauth1_token = some o1) :
    getAccessTokenLoad st net now sctx =
      (match refreshOAuth2Token st.kv o1 net now sctx with
       | (Except.error e, kv1, ev) =>
         (Except.error e, { st with kv := kv1 },
          [Event.kvRead "oauth2_token", Event.kvRead "oauth1_token"] ++ ev)
       | (Except.ok fresh, kv1, ev) =>
         (Except.ok fresh.access_token, { kv := kv1, oauth2Cache := some fresh },
          [Event.kvRead "oauth2_token", Event.kvRead "oauth1_token"] ++ ev)) := by
  simp [getAccessTokenLoad, h2, hs, h1]

/-- C3: getAccessToken invokes the Refresh Orchestrator exactly when
neither the in-process cached credential nor the stored OAuth2
credential is valid beyond the 60-second margin: with the OAuth1
credential present, a refresh call appears in the trace precisely when
the cache check fails and the stored expiry is at most now plus 60; a
still-valid stored credential is returned without any refresh; when
the stale path is taken with no OAuth1 credential the call fails with
the credentials-missing error and no refresh; and when a refresh
occurs the OAuth1 credential read happens first, directly before the
refresh call. -/
theorem c3_getAccessToken_refresh_exactly_when_stale
    (st : ClientState) (net : NetEnv) (now : Int) (sctx : SignCtx)
    (stored : OAuth2Token) (e : Int)
    (h2 : st.kv.oauth2_token = some stored)
    (he : stored.expires_at = some e) :
    (∀ o1, st.kv.oauth1_token = some o1 →
      (Event.callRefresh ∈ (getAccessToken st net now sctx).2.2 ↔
        (cacheFresh st now = false ∧ e ≤ now + 60)))
    ∧ (st.kv.oauth1_token = none → cacheFresh st now = false → e ≤ now + 60 →
        (getAccessToken st net now sctx).1 = Except.error GErr.noOAuth1Token
        ∧ Event.callRefresh ∉ (getAccessToken st net now sctx).2.2)
    ∧ (cacheFresh st now = false → now + 60 < e →
        (getAccessToken st net now sctx).1 = Except.ok stored.access_token
        ∧ Event.callRefresh ∉ (getAccessToken st net now sctx).2.2)
    ∧ (∀ o1, st.kv.oauth1_token = some o1 → cacheFresh st now = false →
        e ≤ now + 60 →
        ∃ rest, (getAccessToken st net now sctx).2.2 =
          Event.kvRead "oauth2_token" :: Event.kvRead "oauth1_token" ::
            Event.callRefresh :: rest) := by
  by_cases hcf : cacheFresh st now
  · obtain ⟨c, hc, hgt⟩ :
        ∃ c, st.oauth2Cache = some c ∧ jsGtNum c.expires_at (now + 60) = true := by
      unfold cacheFresh at hcf
      rcases hcache : st.oauth2Cache with _ | c
      · rw [hcache] at hcf; simp at hcf
      · rw [hcache] at hcf; exact ⟨c, rfl, hcf⟩
    have hrun := getAccessToken_of_cacheFresh st net now sctx c hc hgt
    refine ⟨?_, ?_, ?_, ?_⟩
    · intro o1 h1
      rw [hrun]
      simp [hcf]
    · intro _ hcf2
      rw [hcf] at hcf2
      exact absurd hcf2 (by simp)
    · intro hcf2
      rw [hcf] at hcf2
      exact absurd hcf2 (by simp)
    · intro o1 _ hcf2
      rw [hcf] at hcf2
      exact absurd hcf2 (by simp)
  · have hcf0 : cacheFresh st now = false := by simpa using hcf
    have hload := getAccessToken_eq_load st net now sctx hcf0
    by_cases hstale : e ≤ now + 60
    · have hsle : jsLeNum stored.expires_at (now + 60) = true := by
        simp [jsLeNum, he, hstale]
      rcases h1case : st.kv.oauth1_token with _ | o1
      · have hrun := load_of_stale_no_oauth1 st net now sctx stored h2 hsle h1case
        rw [hload, hrun]
        refine ⟨?_, ?_, ?_, ?_⟩
        · intro o1 h1
          exact absurd h1 (by simp)
        · intro _ _ _
          exact ⟨rfl, by simp⟩
        · intro _ hgt
          omega
        · intro o1 h1
          exact absurd h1 (by simp)
      · have hrun := load_of_stale_refresh st net now sctx stored o1 h2 hsle h1case
        obtain ⟨rest, hrest⟩ := refresh_starts_callRefresh st.kv o1 net now sctx
        rw [hload, hrun]
        rcases hr : refreshOAuth2Token st.kv o1 net now sctx with ⟨r, kv1, ev⟩
        rw [hr] at hrest
        simp only at hrest
        cases r with
        | error err =>
          refine ⟨?_, ?_, ?_, ?_⟩
          · intro _ _
            simp [hrest, hcf0, hstale]
          · intro h1
            exact absurd h1 (by simp)
          · intro _ hgt
            omega
          · intro _ _ _ _
            exact ⟨rest, by simp [hrest]⟩
        | ok fresh =>
          refine ⟨?_, ?_, ?_, ?_⟩
          · intro _ _
            simp [hrest, hcf0, hstale]
          · intro h1
            exact absurd h1 (by simp)
          · intro _ hgt
            omega
          · intro _ _ _ _
            exact ⟨rest, by simp [hrest]⟩
    · have hsle : jsLeNum stored.expires_at (now + 60) = false := by
        simp [jsLeNum, he]
        omega
      have hrun := load_of_fresh st net now sctx stored h2 hsle
      rw [hload, hrun]
      refine ⟨?_, ?_, ?_, ?_⟩
      · intro o1 h1
        simp [hcf0, hstale]
      · intro _ _ hle
        exact absurd hle hstale
      · intro _ _
        exact ⟨rfl, by simp⟩
      · intro _ _ _ hle
        exact absurd hle hstale

theorem getConsumer_hit (kv : KVStore) (net : NetEnv) (c : OAuthConsumer)
    (h : kv.oauth_consumer = some c) :
    getConsumer kv net = (Except.ok c, kv, [Event.kvRead CONSUMER_KV_KEY]) := by
  simp [getConsumer, h]

theorem getConsumer_miss_ok (kv : KVStore) (net : NetEnv)
    (h : kv.oauth_consumer = none) (hok : net.consumerResp.ok = true) :
    getConsumer kv net =
      (Except.ok net.consumerJson, { kv with oauth_consumer := some net.consumerJson },
       [Event.kvRead CONSUMER_KV_KEY, Event.httpFetch CONSUMER_URL "",
        Event.kvWrite CONSUMER_KV_KEY (some CONSUMER_TTL)]) := by
  simp [getConsumer, h, hok]

theorem getConsumer_miss_fail (kv : KVStore) (net : NetEnv)
    (h : kv.oauth_consumer = none) (hok : net.consumerResp.ok = false) :
    getConsumer kv net =
      (Except.error (GErr.consumerFetchFailed net.consumerResp.status), kv,
       [Event.kvRead CONSUMER_KV_KEY, Event.httpFetch CONSUMER_URL ""]) := by
  simp [getConsumer, h, hok]

theorem getConsumer_frame (kv : KVStore) (net : NetEnv) :
    (getConsumer kv net).2.1.oauth1_token = kv.oauth1_token
    ∧ (getConsumer kv net).2.1.oauth2_token = kv.oauth2_token
    ∧ ∀ k t, Event.kvWrite k t ∈ (getConsumer kv net).2.2 → k = CONSUMER_KV_KEY := by
  rcases hcons : kv.oauth_consumer with _ | c
  · by_cases hok : net.consumerResp.ok
    · rw [getConsumer_miss_ok kv net hcons hok]
      refine ⟨rfl, rfl, ?_⟩
      intro k t h
      simp only [List.mem_cons, List.not_mem_nil, or_false] at h
      rcases h with h | h | h
      · exact absurd h (by simp)
      · exact absurd h (by simp)
      · injection h with hk ht
    · have hok0 : net.consumerResp.ok = false := by simpa using hok
      rw [getConsumer_miss_fail kv net hcons hok0]
      refine ⟨rfl, rfl, ?_⟩
      intro k t h
      simp only [List.mem_cons, List.not_mem_nil, or_false] at h
      rcases h with h | h <;> exact absurd h (by simp)
  · rw [getConsumer_hit kv net c hcons]
    refine ⟨rfl, rfl, ?_⟩
    intro k t h
    simp only [List.mem_cons, List.not_mem_nil, or_false] at h
    exact absurd h (by simp)

/-- C7: getConsumer returns the durably cached pair with no fetch and
no write whenever the cache entry is present; on a miss it performs
exactly one fetch of the fixed consumer URL and on success stores the
pair with the 86400-second TTL before returning it; if that single
fetch fails the call fails with the upstream-unavailable error, with
no retry and no store write.  Each case is stated as the exact result
triple, so the traces show the absence of further fetches or writes. -/
theorem c7_getConsumer_cache_policy (kv : KVStore) (net : NetEnv) :
    (∀ c, kv.oauth_consumer = some c →
      getConsumer kv net = (Except.ok c, kv, [Event.kvRead CONSUMER_KV_KEY]))
    ∧ (kv.oauth_consumer = none → net.consumerResp.ok = true →
      getConsumer kv net =
        (Except.ok net.consumerJson,
         { kv with oauth_consumer := some net.consumerJson },
         [Event.kvRead CONSUMER_KV_KEY, Event.httpFetch CONSUMER_URL "",
          Event.kvWrite CONSUMER_KV_KEY (some CONSUMER_TTL)]))
    ∧ (kv.oauth_consumer = none → net.consumerResp.ok = false →
      getConsumer kv net =
        (Except.error (GErr.consumerFetchFailed net.consumerResp.status), kv,
         [Event.kvRead CONSUMER_KV_KEY, Event.httpFetch CONSUMER_URL ""])) :=
  ⟨fun c h => getConsumer_hit kv net c h,
   fun h hok => getConsumer_miss_ok kv net h hok,
   fun h hok => getConsumer_miss_fail kv net h hok⟩

theorem cacheFresh_true_elim (st : ClientState) (now : Int)
    (h : cacheFresh st now = true) :
    ∃ c, st.oauth2Cache = some c ∧ jsGtNum c.expires_at (now + 60) = true := by
  unfold cacheFresh at h
  rcases hcache : st.oauth2Cache with _ | c
  · rw [hcache] at h; simp at h
  · rw [hcache] at h; exact ⟨c, rfl, h⟩

theorem refresh_of_consumer_error (kv : KVStore) (o1 : OAuth1Token) (net : NetEnv)
    (now : Int) (sctx : SignCtx) (e : GErr) (kv1 : KVStore) (ev1 : List Event)
    (hgc : getConsumer kv net = (Except.error e, kv1, ev1)) :
    refreshOAuth2Token kv o1 net now sctx =
      (Except.error e, kv1, Event.callRefresh :: ev1) := by
  unfold refreshOAuth2Token
  rw [hgc]

theorem refresh_of_exchange_ok (kv : KVStore) (o1 : OAuth1Token) (net : NetEnv)
    (now : Int) (sctx : SignCtx) (c : OAuthConsumer) (kv1 : KVStore) (ev1 : List Event)
    (hgc : getConsumer kv net = (Except.ok c, kv1, ev1))
    (hx : net.exchangeResp.ok = true) :
    refreshOAuth2Token kv o1 net now sctx =
      (Except.ok (normalizeExpiry now net.exchangeJson),
       { kv1 with oauth2_token := some (normalizeExpiry now net.exchangeJson) },
       Event.callRefresh ::
         ev1 ++ [Event.httpFetch EXCHANGE_URL (buildOAuth1Header sctx c o1),
                 Event.kvWrite "oauth2_token" none]) := by
  unfold refreshOAuth2Token
  rw [hgc]
  simp [hx]

theorem refresh_of_exchange_fail (kv : KVStore) (o1 : OAuth1Token) (net : NetEnv)
    (now : Int) (sctx : SignCtx) (c : OAuthConsumer) (kv1 : KVStore) (ev1 : List Event)
    (hgc : getConsumer kv net = (Except.ok c, kv1, ev1))
    (hx : net.exchangeResp.ok = false) :
    refreshOAuth2Token kv o1 net now sctx =
      (Except.error (GErr.exchangeFailed net.exchangeResp.status net.exchangeResp.body),
       kv1,
       Event.callRefresh ::
         ev1 ++ [Event.httpFetch EXCHANGE_URL (buildOAuth1Header sctx c o1)]) := by
  unfold refreshOAuth2Token
  rw [hgc]
  simp [hx]

theorem refresh_frame (kv : KVStore) (o1 : OAuth1Token) (net : NetEnv)
    (now : Int) (sctx : SignCtx) :
    (refreshOAuth2Token kv o1 net now sctx).2.1.oauth1_token = kv.oauth1_token
    ∧ ∀ k t, Event.kvWrite k t ∈ (refreshOAuth2Token kv o1 net now sctx).2.2 →
        k = "oauth2_token" ∨ k = CONSUMER_KV_KEY := by
  have hf := getConsumer_frame kv net
  rcases hgc : getConsumer kv net with ⟨r, kv1, ev1⟩
  rw [hgc] at hf
  obtain ⟨hf1, hf2, hfw⟩ := hf
  cases r with
  | error e =>
    rw [refresh_of_consumer_error kv o1 net now sctx e kv1 ev1 hgc]
    refine ⟨hf1, ?_⟩
    intro k t h
    simp only [List.mem_cons] at h
    rcases h with h | h
    · exact absurd h (by simp)
    · exact Or.inr (hfw k t h)
  | ok c =>
    by_cases hx : net.exchangeResp.ok
    · rw [refresh_of_exchange_ok kv o1 net now sctx c kv1 ev1 hgc hx]
      refine ⟨hf1, ?_⟩
      intro k t h
      rcases List.mem_cons.mp h with h | h
      · exact absurd h (by simp)
      rcases List.mem_append.mp h with h | h
      · exact Or.inr (hfw k t h)
      rcases List.mem_cons.mp h with h | h
      · exact absurd h (by simp)
      rcases List.mem_cons.mp h with h | h
      · refine Or.inl ?_
        injection h with hk ht
      · exact absurd h (by simp)
    · have hx0 : net.exchangeResp.ok = false := by simpa using hx
      rw [refresh_of_exchange_fail kv o1 net now sctx c kv1 ev1 hgc hx0]
      refine ⟨hf1, ?_⟩
      intro k t h
      rcases List.mem_cons.mp h with h | h
      · exact absurd h (by simp)
      rcases List.mem_append.mp h with h | h
      · exact Or.inr (hfw k t h)
      rcases List.mem_cons.mp h with h | h
      · exact absurd h (by simp)
      · exact absurd h (by simp)

theorem load_of_stale_refresh_error (st : ClientState) (net : NetEnv) (now : Int)
    (sctx : SignCtx) (stored : OAuth2Token) (o1 : OAuth1Token) (e : GErr)
    (kv1 : KVStore) (ev : List Event)
    (h2 : st.kv.oauth2_token = some stored)
    (hs : jsLeNum stored.expires_at (now + 60) = true)
    (h1 : st.kv.oauth1_token = some o1)
    (hr : refreshOAuth2Token st.kv o1 net now sctx = (Except.error e, kv1, ev)) :
    getAccessTokenLoad st net now sctx =
      (Except.error e, { st with kv := kv1 },
       [Event.kvRead "oauth2_token", Event.kvRead "oauth1_token"] ++ ev) := by
  rw [load_of_stale_refresh st net now sctx stored o1 h2 hs h1, hr]

theorem load_of_stale_refresh_ok (st : ClientState) (net : NetEnv) (now : Int)
    (sctx : SignCtx) (stored : OAuth2Token) (o1 : OAuth1Token)
    (fresh : OAuth2Token) (kv1 : KVStore) (ev : List Event)
    (h2 : st.kv.oauth2_token = some stored)
    (hs : jsLeNum stored.expires_at (now + 60) = true)
    (h1 : st.kv.oauth1_token = some o1)
    (hr : refreshOAuth2Token st.kv o1 net now sctx = (Except.ok fresh, kv1, ev)) :
    getAccessTokenLoad st net now sctx =
      (Except.ok fresh.access_token, { kv := kv1, oauth2Cache := some fresh },
       [Event.kvRead "oauth2_token", Event.kvRead "oauth1_token"] ++ ev) := by
  rw [load_of_stale_refresh st net now sctx stored o1 h2 hs h1, hr]

theorem getAccessToken_frame (st : ClientState) (net : NetEnv) (now : Int)
    (sctx : SignCtx) :
    (getAccessToken st net now sctx).2.1.kv.oauth1_token = st.kv.oauth1_token
    ∧ ∀ k t, Event.kvWrite k t ∈ (getAccessToken st net now sctx).2.2 →
        k = "oauth2_token" ∨ k = CONSUMER_KV_KEY := by
  by_cases hcf : cacheFresh st now
  · obtain ⟨c, hc, hgt⟩ := cacheFresh_true_elim st now hcf
    rw [getAccessToken_of_cacheFresh st net now sctx c hc hgt]
    exact ⟨rfl, by intro k t h; simp at h⟩
  · rw [getAccessToken_eq_load st net now sctx (by simpa using hcf)]
    rcases h2 : st.kv.oauth2_token with _ | stored
    · rw [load_of_missing st net now sctx h2]
      exact ⟨rfl, by intro k t h; simp at h⟩
    · by_cases hs : jsLeNum stored.expires_at (now + 60)
      · rcases h1 : st.kv.oauth1_token with _ | o1
        · rw [load_of_stale_no_oauth1 st net now sctx stored h2 hs h1]
          exact ⟨h1, by intro k t h; simp at h⟩
        · have hrf := refresh_frame st.kv o1 net now sctx
          rcases hr : refreshOAuth2Token st.kv o1 net now sctx with ⟨r, kv1, ev⟩
          rw [hr] at hrf
          cases r with
          | error e =>
            rw [load_of_stale_refresh_error st net now sctx stored o1 e kv1 ev h2 hs h1 hr]
            refine ⟨?_, ?_⟩
            · rw [show ({ st with kv := kv1 } : ClientState).kv = kv1 from rfl]
              rw [← h1]
              exact hrf.1
            · intro k t h
              rcases List.mem_append.mp h with h | h
              · exact absurd h (by simp)
              · exact hrf.2 k t h
          | ok fresh =>
            rw [load_of_stale_refresh_ok st net now sctx stored o1 fresh kv1 ev h2 hs h1 hr]
            refine ⟨?_, ?_⟩
            · rw [← h1]
              exact hrf.1
            · intro k t h
              rcases List.mem_append.mp h with h | h
              · exact absurd h (by simp)
              · exact hrf.2 k t h
      · rw [load_of_fresh st net now sctx stored h2 (by simpa using hs)]
        exact ⟨rfl, by intro k t h; simp at h⟩

theorem get_of_token_error (st : ClientState) (net : NetEnv) (now : Int)
    (sctx : SignCtx) (path : String) (params : List (String × String))
    (e : GErr) (st1 : ClientState) (ev1 : List Event)
    (hg : getAccessToken st net now sctx = (Except.error e, st1, ev1)) :
    GarminClient.get st net now sctx path params = (Except.error e, st1, ev1) := by
  unfold GarminClient.get
  rw [hg]

theorem get_of_204 (st : ClientState) (net : NetEnv) (now : Int)
    (sctx : SignCtx) (path : String) (params : List (String × String))
    (t : String) (st1 : ClientState) (ev1 : List Event)
    (hg : getAccessToken st net now sctx = (Except.ok t, st1, ev1))
    (h204 : (net.apiResps 0).status = 204) :
    GarminClient.get st net now sctx path params =
      (Except.ok none, st1,
       ev1 ++ [Event.httpFetch (urlWithParams path params) ("Bearer " ++ t)]) := by
  unfold GarminClient.get
  rw [hg]
  simp [h204]

theorem get_of_auth_error (st : ClientState) (net : NetEnv) (now : Int)
    (sctx : SignCtx) (path : String) (params : List (String × String))
    (t : String) (st1 : ClientState) (ev1 : List Event)
    (e : GErr) (st2 : ClientState) (ev2 : List Event)
    (hg : getAccessToken st net now sctx = (Except.ok t, st1, ev1))
    (h401 : (net.apiResps 0).status = 401 ∨ (net.apiResps 0).status = 403)
    (hg2 : getAccessToken { st1 with oauth2Cache := none } net now sctx =
      (Except.error e, st2, ev2)) :
    GarminClient.get st net now sctx path params =
      (Except.error e, st2,
       ev1 ++ [Event.httpFetch (urlWithParams path params) ("Bearer " ++ t)] ++ ev2) := by
  unfold GarminClient.get
  rw [hg]
  rcases h401 with h | h <;> simp [h, hg2]

theorem get_of_retry_fail (st : ClientState) (net : NetEnv) (now : Int)
    (sctx : SignCtx) (path : String) (params : List (String × String))
    (t t2 : String) (st1 st2 : ClientState) (ev1 ev2 : List Event)
    (hg : getAccessToken st net now sctx = (Except.ok t, st1, ev1))
    (h401 : (net.apiResps 0).status = 401 ∨ (net.apiResps 0).status = 403)
    (hg2 : getAccessToken { st1 with oauth2Cache := none } net now sctx =
      (Except.ok t2, st2, ev2))
    (hr : (net.apiResps 1).ok = false) :
    GarminClient.get st net now sctx path params =
      (Except.error (GErr.apiError (net.apiResps 1).status (net.apiResps 1).body),
       st2,
       ev1 ++ [Event.httpFetch (urlWithParams path params) ("Bearer " ++ t)] ++ ev2 ++
         [Event.httpFetch (urlWithParams path params) ("Bearer " ++ t2)]) := by
  unfold GarminClient.get
  rw [hg]
  rcases h401 with h | h <;> simp [h, hg2, hr]

theorem get_of_retry_204 (st : ClientState) (net : NetEnv) (now : Int)
    (sctx : SignCtx) (path : String) (params : List (String × String))
    (t t2 : String) (st1 st2 : ClientState) (ev1 ev2 : List Event)
    (hg : getAccessToken st net now sctx = (Except.ok t, st1, ev1))
    (h401 : (net.apiResps 0).status = 401 ∨ (net.apiResps 0).status = 403)
    (hg2 : getAccessToken { st1 with oauth2Cache := none } net now sctx =
      (Except.ok t2, st2, ev2))
    (hr : (net.apiResps 1).ok = true) (hr204 : (net.apiResps 1).status = 204) :
    GarminClient.get st net now sctx path params =
      (Except.ok none, st2,
       ev1 ++ [Event.httpFetch (urlWithParams path params) ("Bearer " ++ t)] ++ ev2 ++
         [Event.httpFetch (urlWithParams path params) ("Bearer " ++ t2)]) := by
  unfold GarminClient.get
  rw [hg]
  rcases h401 with h | h <;> simp [h, hg2, hr, hr204]

theorem get_of_retry_ok (st : ClientState) (net : NetEnv) (now : Int)
    (sctx : SignCtx) (path : String) (params : List (String × String))
    (t t2 : String) (st1 st2 : ClientState) (ev1 ev2 : List Event)
    (hg : getAccessToken st net now sctx = (Except.ok t, st1, ev1))
    (h401 : (net.apiResps 0).status = 401 ∨ (net.apiResps 0).status = 403)
    (hg2 : getAccessToken { st1 with oauth2Cache := none } net now sctx =
      (Except.ok t2, st2, ev2))
    (hr : (net.apiResps 1).ok = true) (hr204 : (net.apiResps 1).status ≠ 204) :
    GarminClient.get st net now sctx path params =
      (Except.ok (some (net.apiResps 1).body), st2,
       ev1 ++ [Event.httpFetch (urlWithParams path params) ("Bearer " ++ t)] ++ ev2 ++
         [Event.httpFetch (urlWithParams path params) ("Bearer " ++ t2)]) := by
  unfold GarminClient.get
  rw [hg]
  rcases h401 with h | h <;> simp [h, hg2, hr, hr204]

theorem get_of_fail (st : ClientState) (net : NetEnv) (now : Int)
    (sctx : SignCtx) (path : String) (params : List (String × String))
    (t : String) (st1 : ClientState) (ev1 : List Event)
    (hg : getAccessToken st net now sctx = (Except.ok t, st1, ev1))
    (h204 : ((net.apiResps 0).status == 204) = false)
    (hauth : ((net.apiResps 0).status == 401 || (net.apiResps 0).status == 403) = false)
    (hnok : (net.apiResps 0).ok = false) :
    GarminClient.get st net now sctx path params =
      (Except.error (GErr.apiError (net.apiResps 0).status (net.apiResps 0).body),
       st1,
       ev1 ++ [Event.httpFetch (urlWithParams path params) ("Bearer " ++ t)]) := by
  unfold GarminClient.get
  rw [hg]
  simp [h204, hauth, hnok]

theorem get_of_ok (st : ClientState) (net : NetEnv) (now : Int)
    (sctx : SignCtx) (path : String) (params : List (String × String))
    (t : String) (st1 : ClientState) (ev1 : List Event)
    (hg : getAccessToken st net now sctx = (Except.ok t, st1, ev1))
    (h204 : ((net.apiResps 0).status == 204) = false)
    (hauth : ((net.apiResps 0).status == 401 || (net.apiResps 0).status == 403) = false)
    (hok : (net.apiResps 0).ok = true) :
    GarminClient.get st net now sctx path params =
      (Except.ok (some (net.apiResps 0).body), st1,
       ev1 ++ [Event.httpFetch (urlWithParams path params) ("Bearer " ++ t)]) := by
  unfold GarminClient.get
  rw [hg]
  simp [h204, hauth, hok]

theorem post_of_token_error (st : ClientState) (net : NetEnv) (now : Int)
    (sctx : SignCtx) (path body : String) (e : GErr) (st1 : ClientState)
    (ev1 : List Event)
    (hg : getAccessToken st net now sctx = (Except.error e, st1, ev1)) :
    GarminClient.post st net now sctx path body = (Except.error e, st1, ev1) := by
  unfold GarminClient.post
  rw [hg]

theorem post_of_204 (st : ClientState) (net : NetEnv) (now : Int)
    (sctx : SignCtx) (path body : String) (t : String) (st1 : ClientState)
    (ev1 : List Event)
    (hg : getAccessToken st net now sctx = (Except.ok t, st1, ev1))
    (h204 : (net.apiResps 0).status = 204) :
    GarminClient.post st net now sctx path body =
      (Except.ok none, st1,
       ev1 ++ [Event.httpFetch (GARMIN_BASE ++ path) ("Bearer " ++ t)]) := by
  unfold GarminClient.post
  rw [hg]
  simp [h204]

theorem post_of_fail (st : ClientState) (net : NetEnv) (now : Int)
    (sctx : SignCtx) (path body : String) (t : String) (st1 : ClientState)
    (ev1 : List Event)
    (hg : getAccessToken st net now sctx = (Except.ok t, st1, ev1))
    (h204 : ((net.apiResps 0).status == 204) = false)
    (hnok : (net.apiResps 0).ok = false) :
    GarminClient.post st net now sctx path body =
      (Except.error (GErr.apiError (net.apiResps 0).status (net.apiResps 0).body),
       st1, ev1 ++ [Event.httpFetch (GARMIN_BASE ++ path) ("Bearer " ++ t)]) := by
  unfold GarminClient.post
  rw [hg]
  simp [h204, hnok]

theorem post_of_success (st : ClientState) (net : NetEnv) (now : Int)
    (sctx : SignCtx) (path body : String) (t : String) (st1 : ClientState)
    (ev1 : List Event)
    (hg : getAccessToken st net now sctx = (Except.ok t, st1, ev1))
    (h204 : ((net.apiResps 0).status == 204) = false)
    (hok : (net.apiResps 0).ok = true) :
    GarminClient.post st net now sctx path body =
      (Except.ok (if (net.apiResps 0).body == "" then none else some (net.apiResps 0).body),
       st1, ev1 ++ [Event.httpFetch (GARMIN_BASE ++ path) ("Bearer " ++ t)]) := by
  unfold GarminClient.post
  rw [hg]
  by_cases hb : (net.apiResps 0).body == ""
  · simp [h204, hok, hb]
  · simp [h204, hok, hb]

theorem put_of_token_error (st : ClientState) (net : NetEnv) (now : Int)
    (sctx : SignCtx) (path body : String) (e : GErr) (st1 : ClientState)
    (ev1 : List Event)
    (hg : getAccessToken st net now sctx = (Except.error e, st1, ev1)) :
    GarminClient.put st net now sctx path body = (Except.error e, st1, ev1) := by
  unfold GarminClient.put
  rw [hg]

theorem put_of_204 (st : ClientState) (net : NetEnv) (now : Int)
    (sctx : SignCtx) (path body : String) (t : String) (st1 : ClientState)
    (ev1 : List Event)
    (hg : getAccessToken st net now sctx = (Except.ok t, st1, ev1))
    (h204 : (net.apiResps 0).status = 204) :
    GarminClient.put st net now sctx path body =
      (Except.ok none, st1,
       ev1 ++ [Event.httpFetch (GARMIN_BASE ++ path) ("Bearer " ++ t)]) := by
  unfold GarminClient.put
  rw [hg]
  simp [h204]

theorem put_of_fail (st : ClientState) (net : NetEnv) (now : Int)
    (sctx : SignCtx) (path body : String) (t : String) (st1 : ClientState)
    (ev1 : List Event)
    (hg : getAccessToken st net now sctx = (Except.ok t, st1, ev1))
    (h204 : ((net.apiResps 0).status == 204) = false)
    (hnok : (net.apiResps 0).ok = false) :
    GarminClient.put st net now sctx path body =
      (Except.error (GErr.apiError (net.apiResps 0).status (net.apiResps 0).body),
       st1, ev1 ++ [Event.httpFetch (GARMIN_BASE ++ path) ("Bearer " ++ t)]) := by
  unfold GarminClient.put
  rw [hg]
  simp [h204, hnok]

theorem put_of_success (st : ClientState) (net : NetEnv) (now : Int)
    (sctx : SignCtx) (path body : String) (t : String) (st1 : ClientState)
    (ev1 : List Event)
    (hg : getAccessToken st net now sctx = (Except.ok t, st1, ev1))
    (h204 : ((net.apiResps 0).status == 204) = false)
    (hok : (net.apiResps 0).ok = true) :
    GarminClient.put st net now sctx path body =
      (Except.ok (if (net.apiResps 0).body == "" then none else some (net.apiResps 0).body),
       st1, ev1 ++ [Event.httpFetch (GARMIN_BASE ++ path) ("Bearer " ++ t)]) := by
  unfold GarminClient.put
  rw [hg]
  by_cases hb : (net.apiResps 0).body == ""
  · simp [h204, hok, hb]
  · simp [h204, hok, hb]

/-- The store keys the core is allowed to write: the OAuth2 credential
key and the consumer-pair key, never the OAuth1 key. -/
def WritesOnly (ev : List Event) : Prop :=
  ∀ k t, Event.kvWrite k t ∈ ev → k = "oauth2_token" ∨ k = CONSUMER_KV_KEY

theorem writesOnly_nil : WritesOnly [] := by
  intro k t h
  simp at h

theorem writesOnly_fetch (u a : String) : WritesOnly [Event.httpFetch u a] := by
  intro k t h
  simp at h

theorem writesOnly_append {a b : List Event} (h1 : WritesOnly a)
    (h2 : WritesOnly b) : WritesOnly (a ++ b) :=
  fun k t h => (List.mem_append.mp h).elim (h1 k t) (h2 k t)

theorem clientGet_frame (st : ClientState) (net : NetEnv) (now : Int)
    (sctx : SignCtx) (path : String) (params : List (String × String)) :
    (GarminClient.get st net now sctx path params).2.1.kv.oauth1_token =
      st.kv.oauth1_token
    ∧ WritesOnly (GarminClient.get st net now sctx path params).2.2 := by
  have hf1 := getAccessToken_frame st net now sctx
  rcases hg : getAccessToken st net now sctx with ⟨r, st1, ev1⟩
  rw [hg] at hf1
  cases r with
  | error e =>
    rw [get_of_token_error st net now sctx path params e st1 ev1 hg]
    exact hf1
  | ok t =>
    by_cases h204 : (net.apiResps 0).status = 204
    · rw [get_of_204 st net now sctx path params t st1 ev1 hg h204]
      exact ⟨hf1.1, writesOnly_append hf1.2 (writesOnly_fetch _ _)⟩
    · by_cases hauth : (net.apiResps 0).status = 401 ∨ (net.apiResps 0).status = 403
      · have hf2 := getAccessToken_frame { st1 with oauth2Cache := none } net now sctx
        rcases hg2 : getAccessToken { st1 with oauth2Cache := none } net now sctx
          with ⟨r2, st2, ev2⟩
        rw [hg2] at hf2
        have hchain :
            (r2, st2, ev2).2.1.kv.oauth1_token = st.kv.oauth1_token :=
          hf2.1.trans hf1.1
        cases r2 with
        | error e =>
          rw [get_of_auth_error st net now sctx path params t st1 ev1 e st2 ev2
            hg hauth hg2]
          exact ⟨hchain,
            writesOnly_append (writesOnly_append hf1.2 (writesOnly_fetch _ _)) hf2.2⟩
        | ok t2 =>
          by_cases hrok : (net.apiResps 1).ok
          · by_cases hr204 : (net.apiResps 1).status = 204
            · rw [get_of_retry_204 st net now sctx path params t t2 st1 st2 ev1 ev2
                hg hauth hg2 hrok hr204]
              exact ⟨hchain,
                writesOnly_append (writesOnly_append
                  (writesOnly_append hf1.2 (writesOnly_fetch _ _)) hf2.2)
                  (writesOnly_fetch _ _)⟩
            · rw [get_of_retry_ok st net now sctx path params t t2 st1 st2 ev1 ev2
                hg hauth hg2 hrok hr204]
              exact ⟨hchain,
                writesOnly_append (writesOnly_append
                  (writesOnly_append hf1.2 (writesOnly_fetch _ _)) hf2.2)
                  (writesOnly_fetch _ _)⟩
          · rw [get_of_retry_fail st net now sctx path params t t2 st1 st2 ev1 ev2
              hg hauth hg2 (by simpa using hrok)]
            exact ⟨hchain,
              writesOnly_append (writesOnly_append
                (writesOnly_append hf1.2 (writesOnly_fetch _ _)) hf2.2)
                (writesOnly_fetch _ _)⟩
      · have h204b : ((net.apiResps 0).status == 204) = false := by simp [h204]
        have hauthb : ((net.apiResps 0).status == 401 ||
            (net.apiResps 0).status == 403) = false := by
          obtain ⟨hn1, hn2⟩ := not_or.mp hauth
          simp [hn1, hn2]
        by_cases hok : (net.apiResps 0).ok
        · rw [get_of_ok st net now sctx path params t st1 ev1 hg h204b hauthb hok]
          exact ⟨hf1.1, writesOnly_append hf1.2 (writesOnly_fetch _ _)⟩
        · rw [get_of_fail st net now sctx path params t st1 ev1 hg h204b hauthb
            (by simpa using hok)]
          exact ⟨hf1.1, writesOnly_append hf1.2 (writesOnly_fetch _ _)⟩

theorem clientPost_frame (st : ClientState) (net : NetEnv) (now : Int)
    (sctx : SignCtx) (path body : String) :
    (GarminClient.post st net now sctx path body).2.1.kv.oauth1_token =
      st.kv.oauth1_token
    ∧ WritesOnly (GarminClient.post st net now sctx path body).2.2 := by
  have hf1 := getAccessToken_frame st net now sctx
  rcases hg : getAccessToken st net now sctx with ⟨r, st1, ev1⟩
  rw [hg] at hf1
  cases r with
  | error e =>
    rw [post_of_token_error st net now sctx path body e st1 ev1 hg]
    exact hf1
  | ok t =>
    by_cases h204 : (net.apiResps 0).status = 204
    · rw [post_of_204 st net now sctx path body t st1 ev1 hg h204]
      exact ⟨hf1.1, writesOnly_append hf1.2 (writesOnly_fetch _ _)⟩
    · have h204b : ((net.apiResps 0).status == 204) = false := by simp [h204]
      by_cases hok : (net.apiResps 0).ok
      · rw [post_of_success st net now sctx path body t st1 ev1 hg h204b hok]
        exact ⟨hf1.1, writesOnly_append hf1.2 (writesOnly_fetch _ _)⟩
      · rw [post_of_fail st net now sctx path body t st1 ev1 hg h204b
          (by simpa using hok)]
        exact ⟨hf1.1, writesOnly_append hf1.2 (writesOnly_fetch _ _)⟩

theorem clientPut_frame (st : ClientState) (net : NetEnv) (now : Int)
    (sctx : SignCtx) (path body : String) :
    (GarminClient.put st net now sctx path body).2.1.kv.oauth1_token =
      st.kv.oauth1_token
    ∧ WritesOnly (GarminClient.put st net now sctx path body).2.2 := by
  have hf1 := getAccessToken_frame st net now sctx
  rcases hg : getAccessToken st net now sctx with ⟨r, st1, ev1⟩
  rw [hg] at hf1
  cases r with
  | error e =>
    rw [put_of_token_error st net now sctx path body e st1 ev1 hg]
    exact hf1
  | ok t =>
    by_cases h204 : (net.apiResps 0).status = 204
    · rw [put_of_204 st net now sctx path body t st1 ev1 hg h204]
      exact ⟨hf1.1, writesOnly_append hf1.2 (writesOnly_fetch _ _)⟩
    · have h204b : ((net.apiResps 0).status == 204) = false := by simp [h204]
      by_cases hok : (net.apiResps 0).ok
      · rw [put_of_success st net now sctx path body t st1 ev1 hg h204b hok]
        exact ⟨hf1.1, writesOnly_append hf1.2 (writesOnly_fetch _ _)⟩
      · rw [put_of_fail st net now sctx path body t st1 ev1 hg h204b
          (by simpa using hok)]
        exact ⟨hf1.1, writesOnly_append hf1.2 (writesOnly_fetch _ _)⟩

/-! ### Concrete fixtures for witnesses and counterexamples -/

/-- A concrete OAuth1 credential. -/
def o1W : OAuth1Token := ⟨"OT", "OTS", none, none, "garmin.com"⟩

/-- A concrete consumer pair. -/
def consumerW : OAuthConsumer := ⟨"CK", "CS"⟩

/-- An exchange response carrying only relative durations. -/
def tokNewW : OAuth2Token :=
  ⟨"connect:all", "J", "Bearer", "NEWTOK", "NEWREF",
   some 72000, none, some 2592000, none⟩

/-- A stored credential stale at time 1000 (expiry 999 = now - 1). -/
def tokStaleW : OAuth2Token :=
  ⟨"connect:all", "J", "Bearer", "STALETOK", "R",
   some 72000, some 999, some 2592000, some 3591000⟩

/-- A stored credential fresh at time 1000 (expiry 4600 = now + 3600). -/
def tokFreshW : OAuth2Token :=
  ⟨"connect:all", "J", "Bearer", "FRESHTOK", "R",
   some 72000, some 4600, some 2592000, some 3591000⟩

/-- An exchange response whose absolute expiry is present with value 0. -/
def tokZeroW : OAuth2Token :=
  ⟨"s", "j", "Bearer", "A", "B", some 72000, some 0, some 2592000, some 2592001⟩

/-- A concrete signing context with a dummy HMAC primitive. -/
def sctxW : SignCtx := ⟨"6e6f6e6365", "1000", fun _ _ => [1, 2, 3]⟩

/-- A network where every upstream call succeeds. -/
def netOkW : NetEnv := ⟨⟨200, ""⟩, consumerW, ⟨200, ""⟩, tokNewW, fun _ => ⟨200, "ok"⟩⟩

/-- A network whose data API answers 401 on the first attempt and 200
on the second. -/
def netRetryW : NetEnv :=
  ⟨⟨200, ""⟩, consumerW, ⟨200, ""⟩, tokNewW,
   fun n => if n == 0 then ⟨401, "denied"⟩ else ⟨200, "ok"⟩⟩

/-- A network whose exchange endpoint answers 503. -/
def netFailW : NetEnv :=
  ⟨⟨200, ""⟩, consumerW, ⟨503, "svc unavailable"⟩, tokNewW, fun _ => ⟨200, "ok"⟩⟩

/-- A network whose consumer-key fetch fails. -/
def netConsFailW : NetEnv :=
  ⟨⟨502, "bad gateway"⟩, consumerW, ⟨200, ""⟩, tokNewW, fun _ => ⟨200, "ok"⟩⟩

/-- A network whose exchange response has the zero absolute field. -/
def netZeroW : NetEnv := ⟨⟨200, ""⟩, consumerW, ⟨200, ""⟩, tokZeroW, fun _ => ⟨200, "ok"⟩⟩

/-- A store with all three records present, the OAuth2 one stale. -/
def kvW : KVStore := ⟨some o1W, some tokStaleW, some consumerW⟩

/-- A store with nothing in it. -/
def kvEmptyW : KVStore := ⟨none, none, none⟩

/-- A store with no cached consumer pair. -/
def kvMissW : KVStore := ⟨some o1W, some tokStaleW, none⟩

/-- A client state with an empty in-process cache over a stale store. -/
def stStaleW : ClientState := ⟨⟨some o1W, some tokStaleW, some consumerW⟩, none⟩

/-- A client state with an empty in-process cache over a fresh store. -/
def stFreshW : ClientState := ⟨⟨some o1W, some tokFreshW, some consumerW⟩, none⟩

/-- A client state whose in-process cache already holds the fresh token. -/
def stCacheW : ClientState := ⟨⟨some o1W, some tokFreshW, some consumerW⟩, some tokFreshW⟩

/-! ### Remaining claim theorems -/

theorem refresh_ok_dest (kv : KVStore) (o1 : OAuth1Token) (net : NetEnv)
    (now : Int) (sctx : SignCtx) (tok : OAuth2Token) (kv1 : KVStore)
    (ev : List Event)
    (h : refreshOAuth2Token kv o1 net now sctx = (Except.ok tok, kv1, ev)) :
    tok = normalizeExpiry now net.exchangeJson
    ∧ kv1.oauth2_token = some tok
    ∧ Event.kvWrite "oauth2_token" none ∈ ev := by
  rcases hgc : getConsumer kv net with ⟨r, kv2, ev2⟩
  cases r with
  | error e =>
    rw [refresh_of_consumer_error kv o1 net now sctx e kv2 ev2 hgc] at h
    exact absurd h (by simp)
  | ok c =>
    by_cases hx : net.exchangeResp.ok
    · rw [refresh_of_exchange_ok kv o1 net now sctx c kv2 ev2 hgc hx] at h
      injection h with h1 h23
      injection h23 with h2 h3
      injection h1 with h1
      subst h1 h2 h3
      refine ⟨rfl, rfl, ?_⟩
      simp
    · rw [refresh_of_exchange_fail kv o1 net now sctx c kv2 ev2 hgc
        (by simpa using hx)] at h
      exact absurd h (by simp)

/-- C8: whenever refreshOAuth2Token returns successfully, the write of
the refreshed credential to the oauth2_token key is part of the
invocation trace and at return the stored value under that key
equals the credential returned to the caller. -/
theorem c8_refresh_persists_before_return (kv : KVStore) (o1 : OAuth1Token)
    (net : NetEnv) (now : Int) (sctx : SignCtx) (tok : OAuth2Token)
    (kv1 : KVStore) (ev : List Event)
    (h : refreshOAuth2Token kv o1 net now sctx = (Except.ok tok, kv1, ev)) :
    kv1.oauth2_token = some tok ∧ Event.kvWrite "oauth2_token" none ∈ ev :=
  ⟨(refresh_ok_dest kv o1 net now sctx tok kv1 ev h).2.1,
   (refresh_ok_dest kv o1 net now sctx tok kv1 ev h).2.2⟩

/-- Witness for C8 at a concrete successful refresh. -/
theorem c8_refresh_persists_before_return_witness :
    ({ kvW with oauth2_token := some (normalizeExpiry 1000 tokNewW) } : KVStore).oauth2_token
        = some (normalizeExpiry 1000 tokNewW)
    ∧ Event.kvWrite "oauth2_token" none ∈
        (Event.callRefresh :: [Event.kvRead CONSUMER_KV_KEY] ++
          [Event.httpFetch EXCHANGE_URL (buildOAuth1Header sctxW consumerW o1W),
           Event.kvWrite "oauth2_token" none]) :=
  c8_refresh_persists_before_return kvW o1W netOkW 1000 sctxW
    (normalizeExpiry 1000 tokNewW)
    { kvW with oauth2_token := some (normalizeExpiry 1000 tokNewW) }
    (Event.callRefresh :: [Event.kvRead CONSUMER_KV_KEY] ++
      [Event.httpFetch EXCHANGE_URL (buildOAuth1Header sctxW consumerW o1W),
       Event.kvWrite "oauth2_token" none])
    (by rfl)

/-- C10: when the consumer step has succeeded and the exchange endpoint
answers a non-ok status, refreshOAuth2Token fails with the error
carrying that status and body, the stored OAuth2 key is left exactly
as it was before the call, and the same failed call may still have
written the fetched consumer pair to its own cache key. -/
theorem c10_exchange_failure_leaves_oauth2_unchanged
    (kv : KVStore) (o1 : OAuth1Token) (net : NetEnv) (now : Int) (sctx : SignCtx)
    (c : OAuthConsumer) (kv1 : KVStore) (ev1 : List Event)
    (hc : getConsumer kv net = (Except.ok c, kv1, ev1))
    (hx : net.exchangeResp.ok = false) :
    refreshOAuth2Token kv o1 net now sctx =
      (Except.error (GErr.exchangeFailed net.exchangeResp.status net.exchangeResp.body),
       kv1,
       Event.callRefresh ::
         ev1 ++ [Event.httpFetch EXCHANGE_URL (buildOAuth1Header sctx c o1)])
    ∧ kv1.oauth2_token = kv.oauth2_token
    ∧ (kv.oauth_consumer = none → net.consumerResp.ok = true →
        kv1.oauth_consumer = some net.consumerJson) := by
  refine ⟨refresh_of_exchange_fail kv o1 net now sctx c kv1 ev1 hc hx, ?_, ?_⟩
  · have hf := (getConsumer_frame kv net).2.1
    rw [hc] at hf
    exact hf
  · intro hmiss hok
    have hrun := getConsumer_miss_ok kv net hmiss hok
    rw [hc] at hrun
    injection hrun with t1 t23
    injection t23 with t2 t3
    rw [t2]

/-- Witness for C10 at a concrete failed exchange with a consumer-cache
miss whose fetch succeeded. -/
theorem c10_exchange_failure_leaves_oauth2_unchanged_witness :
    ({ kvMissW with oauth_consumer := some consumerW } : KVStore).oauth2_token =
      kvMissW.oauth2_token
    ∧ ({ kvMissW with oauth_consumer := some consumerW } : KVStore).oauth_consumer =
        some netFailW.consumerJson := by
  have h := c10_exchange_failure_leaves_oauth2_unchanged kvMissW o1W netFailW 1000
    sctxW consumerW { kvMissW with oauth_consumer := some consumerW }
    [Event.kvRead CONSUMER_KV_KEY, Event.httpFetch CONSUMER_URL "",
     Event.kvWrite CONSUMER_KV_KEY (some CONSUMER_TTL)]
    (by rfl) (by decide)
  exact ⟨h.2.1, h.2.2 rfl (by decide)⟩

/-- C4 counterexample: an exchange response carrying expires_at present
with value 0 together with expires_in 72000 is persisted with
expires_at = now + expires_in, not with the value it already carried,
refuting that absolute fields already present in the response are
always persisted unchanged. -/
theorem c4_counterexample_present_zero_absolute_overwritten :
    netZeroW.exchangeJson.expires_at = some 0
    ∧ (normalizeExpiry 1000 netZeroW.exchangeJson).expires_at = some 73000
    ∧ (refreshOAuth2Token kvW o1W netZeroW 1000 sctxW).2.1.oauth2_token =
        some (normalizeExpiry 1000 netZeroW.exchangeJson)
    ∧ (normalizeExpiry 1000 netZeroW.exchangeJson).expires_at ≠
        netZeroW.exchangeJson.expires_at := by
  refine ⟨rfl, by decide, by rfl, by decide⟩

/-- C4 (amended): refreshOAuth2Token converts relative durations to
absolute timestamps before persisting, with presence read in the JS
truthiness sense: when the absolute field is absent or zero and the
relative field is present and nonzero, the absolute field becomes now
plus the relative duration; an absolute field present with a nonzero
value is persisted unchanged; and a successful refresh returns and
persists exactly the normalized response. -/
theorem c4_relative_durations_normalized (now2 : Int) (r : OAuth2Token)
    (kv : KVStore) (o1 : OAuth1Token) (net : NetEnv) (sctx : SignCtx)
    (tok : OAuth2Token) (kv1 : KVStore) (ev : List Event) :
    (jsTruthy r.expires_at = false → jsTruthy r.expires_in = true →
      (normalizeExpiry now2 r).expires_at = some (now2 + r.expires_in.getD 0))
    ∧ (jsTruthy r.expires_at = true →
      (normalizeExpiry now2 r).expires_at = r.expires_at)
    ∧ (jsTruthy r.refresh_token_expires_at = false →
        jsTruthy r.refresh_token_expires_in = true →
      (normalizeExpiry now2 r).refresh_token_expires_at =
        some (now2 + r.refresh_token_expires_in.getD 0))
    ∧ (jsTruthy r.refresh_token_expires_at = true →
      (normalizeExpiry now2 r).refresh_token_expires_at =
        r.refresh_token_expires_at)
    ∧ (net.exchangeJson = r →
        refreshOAuth2Token kv o1 net now2 sctx = (Except.ok tok, kv1, ev) →
        tok = normalizeExpiry now2 r ∧ kv1.oauth2_token = some tok) := by
  refine ⟨?_, ?_, ?_, ?_, ?_⟩
  · intro h1 h2
    simp only [normalizeExpiry]
    split_ifs <;> simp_all
  · intro h1
    simp only [normalizeExpiry]
    split_ifs <;> simp_all
  · intro h1 h2
    simp only [normalizeExpiry]
    split_ifs <;> simp_all
  · intro h1
    simp only [normalizeExpiry]
    split_ifs <;> simp_all
  · intro hjson h
    have hd := refresh_ok_dest kv o1 net now2 sctx tok kv1 ev h
    rw [hjson] at hd
    exact ⟨hd.1, hd.2.1⟩

/-- Witness for C4: the spec scenario, a response with expires_in 72000
and refresh_token_expires_in 2592000 and no absolute fields received
at time 1000, is persisted with expires_at 73000 and
refresh_token_expires_at 2593000. -/
theorem c4_relative_durations_normalized_witness :
    (normalizeExpiry 1000 tokNewW).expires_at = some 73000
    ∧ (normalizeExpiry 1000 tokNewW).refresh_token_expires_at = some 2593000 := by
  have h1 := (c4_relative_durations_normalized 1000 tokNewW kvW o1W netOkW sctxW
    tokNewW kvW []).1 (by decide) (by decide)
  have h2 := (c4_relative_durations_normalized 1000 tokNewW kvW o1W netOkW sctxW
    tokNewW kvW []).2.2.1 (by decide) (by decide)
  rw [h1, h2]
  exact ⟨by decide, by decide⟩

/-- C6: with the in-process cache empty and neither credential in the
durable store, getAccessToken fails with the OAuth2
credentials-missing error after a single KV read, and its trace
contains no outbound HTTP fetch of any kind. -/
theorem c6_missing_credentials_no_network
    (st : ClientState) (net : NetEnv) (now : Int) (sctx : SignCtx)
    (hc : st.oauth2Cache = none) (h2 : st.kv.oauth2_token = none)
    (h1 : st.kv.oauth1_token = none) :
    getAccessToken st net now sctx =
      (Except.error GErr.noOAuth2Token, st, [Event.kvRead "oauth2_token"])
    ∧ ∀ u a, Event.httpFetch u a ∉ (getAccessToken st net now sctx).2.2 := by
  have hrun : getAccessToken st net now sctx =
      (Except.error GErr.noOAuth2Token, st, [Event.kvRead "oauth2_token"]) := by
    rw [getAccessToken_eq_load st net now sctx (by simp [cacheFresh, hc])]
    exact load_of_missing st net now sctx h2
  refine ⟨hrun, ?_⟩
  intro u a h
  rw [hrun] at h
  simp at h

/-- Witness for C6 at the empty store. -/
theorem c6_missing_credentials_no_network_witness :
    getAccessToken ⟨⟨none, none, none⟩, none⟩ netOkW 1000 sctxW =
      (Except.error GErr.noOAuth2Token, ⟨⟨none, none, none⟩, none⟩,
       [Event.kvRead "oauth2_token"])
    ∧ Event.httpFetch CONSUMER_URL "" ∉
        (getAccessToken ⟨⟨none, none, none⟩, none⟩ netOkW 1000 sctxW).2.2 :=
  ⟨(c6_missing_credentials_no_network ⟨⟨none, none, none⟩, none⟩ netOkW 1000 sctxW
      rfl rfl rfl).1,
   (c6_missing_credentials_no_network ⟨⟨none, none, none⟩, none⟩ netOkW 1000 sctxW
      rfl rfl rfl).2 CONSUMER_URL ""⟩

/-- Witness for C3: with the stale store the refresh call appears in
the trace, and with the credential expiring 3600 seconds after now the
stored token is returned with no refresh call. -/
theorem c3_getAccessToken_refresh_exactly_when_stale_witness :
    Event.callRefresh ∈ (getAccessToken stStaleW netOkW 1000 sctxW).2.2
    ∧ (getAccessToken stFreshW netOkW 1000 sctxW).1 = Except.ok "FRESHTOK"
    ∧ Event.callRefresh ∉ (getAccessToken stFreshW netOkW 1000 sctxW).2.2 := by
  refine ⟨?_, ?_, ?_⟩
  · exact ((c3_getAccessToken_refresh_exactly_when_stale stStaleW netOkW 1000 sctxW
      tokStaleW 999 rfl rfl).1 o1W rfl).mpr ⟨rfl, by decide⟩
  · exact ((c3_getAccessToken_refresh_exactly_when_stale stFreshW netOkW 1000 sctxW
      tokFreshW 4600 rfl rfl).2.2.1 rfl (by decide)).1
  · exact ((c3_getAccessToken_refresh_exactly_when_stale stFreshW netOkW 1000 sctxW
      tokFreshW 4600 rfl rfl).2.2.1 rfl (by decide)).2

/-- Witness for C7 at a concrete hit, a concrete successful miss, and a
concrete failed miss. -/
theorem c7_getConsumer_cache_policy_witness :
    getConsumer kvW netOkW = (Except.ok consumerW, kvW, [Event.kvRead CONSUMER_KV_KEY])
    ∧ getConsumer kvEmptyW netOkW =
        (Except.ok consumerW, { kvEmptyW with oauth_consumer := some consumerW },
         [Event.kvRead CONSUMER_KV_KEY, Event.httpFetch CONSUMER_URL "",
          Event.kvWrite CONSUMER_KV_KEY (some CONSUMER_TTL)])
    ∧ getConsumer kvEmptyW netConsFailW =
        (Except.error (GErr.consumerFetchFailed 502), kvEmptyW,
         [Event.kvRead CONSUMER_KV_KEY, Event.httpFetch CONSUMER_URL ""]) := by
  refine ⟨(c7_getConsumer_cache_policy kvW netOkW).1 consumerW rfl,
    (c7_getConsumer_cache_policy kvEmptyW netOkW).2.1 rfl (by decide), ?_⟩
  exact (c7_getConsumer_cache_policy kvEmptyW netConsFailW).2.2 rfl (by decide)

/-- C9: no operation of the core ever writes to the OAuth1 credential
key: for every run of getConsumer, refreshOAuth2Token, getAccessToken
and the Executor get, post and put, the stored OAuth1 credential is
unchanged and every store write in the trace targets the OAuth2
credential key or the consumer-pair key. -/
theorem c9_oauth1_credential_readonly
    (kv : KVStore) (st : ClientState) (o1 : OAuth1Token) (net : NetEnv)
    (now : Int) (sctx : SignCtx) (path : String)
    (params : List (String × String)) (body : String) :
    ((getConsumer kv net).2.1.oauth1_token = kv.oauth1_token
      ∧ WritesOnly (getConsumer kv net).2.2)
    ∧ ((refreshOAuth2Token kv o1 net now sctx).2.1.oauth1_token = kv.oauth1_token
      ∧ WritesOnly (refreshOAuth2Token kv o1 net now sctx).2.2)
    ∧ ((getAccessToken st net now sctx).2.1.kv.oauth1_token = st.kv.oauth1_token
      ∧ WritesOnly (getAccessToken st net now sctx).2.2)
    ∧ ((GarminClient.get st net now sctx path params).2.1.kv.oauth1_token =
        st.kv.oauth1_token
      ∧ WritesOnly (GarminClient.get st net now sctx path params).2.2)
    ∧ ((GarminClient.post st net now sctx path body).2.1.kv.oauth1_token =
        st.kv.oauth1_token
      ∧ WritesOnly (GarminClient.post st net now sctx path body).2.2)
    ∧ ((GarminClient.put st net now sctx path body).2.1.kv.oauth1_token =
        st.kv.oauth1_token
      ∧ WritesOnly (GarminClient.put st net now sctx path body).2.2) := by
  refine ⟨⟨(getConsumer_frame kv net).1, ?_⟩,
    refresh_frame kv o1 net now sctx,
    getAccessToken_frame st net now sctx,
    clientGet_frame st net now sctx path params,
    clientPost_frame st net now sctx path body,
    clientPut_frame st net now sctx path body⟩
  intro k t h
  exact Or.inr ((getConsumer_frame kv net).2.2 k t h)

/-- Witness for C9: at a concrete run whose trace does contain a store
write, the write targets the consumer key. -/
theorem c9_oauth1_credential_readonly_witness :
    (getConsumer kvEmptyW netOkW).2.1.oauth1_token = kvEmptyW.oauth1_token
    ∧ (CONSUMER_KV_KEY = "oauth2_token" ∨ CONSUMER_KV_KEY = CONSUMER_KV_KEY) :=
  ⟨(c9_oauth1_credential_readonly kvEmptyW stCacheW o1W netOkW 1000 sctxW "/p" []
      "").1.1,
   (c9_oauth1_credential_readonly kvEmptyW stCacheW o1W netOkW 1000 sctxW "/p" []
      "").1.2 CONSUMER_KV_KEY (some CONSUMER_TTL) (by decide)⟩

/-- C1 (amended): the single retry-on-auth-failure policy is
implemented for GET only.  For a GET whose first upstream response is
401 or 403, the in-process token cache is cleared, a fresh token is
obtained and the request is retried exactly once: a non-2xx retry is
terminal and surfaced as the ApiError carrying the retry status and
body, and a 2xx retry yields its body, with exactly two upstream data
fetches in the trace.  POST and PUT requests perform no retry: the
first non-2xx response other than 204 (including 401 and 403) is
terminal and surfaced as the ApiError carrying that status and body
after a single upstream fetch, with the cache untouched. -/
theorem c1_auth_retry_get_only
    (st st1 : ClientState) (net : NetEnv) (now : Int) (sctx : SignCtx)
    (path : String) (params : List (String × String)) (body : String)
    (t1 : String) (ev1 : List Event)
    (h1 : getAccessToken st net now sctx = (Except.ok t1, st1, ev1)) :
    (((net.apiResps 0).status = 401 ∨ (net.apiResps 0).status = 403) →
      ∀ t2 st2 ev2,
        getAccessToken { st1 with oauth2Cache := none } net now sctx =
          (Except.ok t2, st2, ev2) →
        ((net.apiResps 1).ok = false →
          GarminClient.get st net now sctx path params =
            (Except.error
              (GErr.apiError (net.apiResps 1).status (net.apiResps 1).body),
             st2,
             ev1 ++ [Event.httpFetch (urlWithParams path params) ("Bearer " ++ t1)]
               ++ ev2 ++
               [Event.httpFetch (urlWithParams path params) ("Bearer " ++ t2)]))
        ∧ ((net.apiResps 1).ok = true → (net.apiResps 1).status ≠ 204 →
          GarminClient.get st net now sctx path params =
            (Except.ok (some (net.apiResps 1).body),
             st2,
             ev1 ++ [Event.httpFetch (urlWithParams path params) ("Bearer " ++ t1)]
               ++ ev2 ++
               [Event.httpFetch (urlWithParams path params) ("Bearer " ++ t2)])))
    ∧ ((net.apiResps 0).status ≠ 204 → (net.apiResps 0).ok = false →
        GarminClient.post st net now sctx path body =
          (Except.error
            (GErr.apiError (net.apiResps 0).status (net.apiResps 0).body),
           st1, ev1 ++ [Event.httpFetch (GARMIN_BASE ++ path) ("Bearer " ++ t1)]))
    ∧ ((net.apiResps 0).status ≠ 204 → (net.apiResps 0).ok = false →
        GarminClient.put st net now sctx path body =
          (Except.error
            (GErr.apiError (net.apiResps 0).status (net.apiResps 0).body),
           st1, ev1 ++ [Event.httpFetch (GARMIN_BASE ++ path) ("Bearer " ++ t1)])) := by
  refine ⟨?_, ?_, ?_⟩
  · intro hauth t2 st2 ev2 hg2
    exact ⟨fun hrf => get_of_retry_fail st net now sctx path params t1 t2 st1 st2
        ev1 ev2 h1 hauth hg2 hrf,
      fun hro hr204 => get_of_retry_ok st net now sctx path params t1 t2 st1 st2
        ev1 ev2 h1 hauth hg2 hro hr204⟩
  · intro hn204 hnok
    exact post_of_fail st net now sctx path body t1 st1 ev1 h1 (by simp [hn204]) hnok
  · intro hn204 hnok
    exact put_of_fail st net now sctx path body t1 st1 ev1 h1 (by simp [hn204]) hnok

/-- C1 counterexample: a POST whose first upstream response is 401 is
terminal with ApiError 401 after a single upstream fetch and with the
in-process cache left in place, even though the network environment would
have answered 200 to a retry — so POST (and likewise PUT) does not
implement the retry the claim asserts for every method. -/
theorem c1_counterexample_post_does_not_retry :
    GarminClient.post stCacheW netRetryW 1000 sctxW "/p" "" =
      (Except.error (GErr.apiError 401 "denied"), stCacheW,
       [Event.httpFetch (GARMIN_BASE ++ "/p") "Bearer FRESHTOK"])
    ∧ (netRetryW.apiResps 1).ok = true := by
  exact ⟨rfl, by decide⟩

/-- Witness for C1: the GET scenario, 401 on the first attempt and 200
on the retry, yields the 200 body with exactly two upstream fetches
and one cache invalidation in between. -/
theorem c1_auth_retry_get_only_witness :
    GarminClient.get stCacheW netRetryW 1000 sctxW "/p" [] =
      (Except.ok (some "ok"), stCacheW,
       [Event.httpFetch (GARMIN_BASE ++ "/p") "Bearer FRESHTOK",
        Event.kvRead "oauth2_token",
        Event.httpFetch (GARMIN_BASE ++ "/p") "Bearer FRESHTOK"]) := by
  have h := ((c1_auth_retry_get_only stCacheW stCacheW netRetryW 1000 sctxW "/p" []
      "" "FRESHTOK" [] (by rfl)).1 (Or.inl rfl) "FRESHTOK" stCacheW
      [Event.kvRead "oauth2_token"] (by rfl)).2 (by decide) (by decide)
  exact h
